import Mathlib

/-!
Verification of the dimension-reduction notebook
(`distribution/4_dimension_reduction.ipynb`).

The notebook defines two functions over a pandas DataFrame loaded from CSV:

* `process_heart_disease_data`: mean-imputes the feature columns, projects
  them onto 6 principal components, concatenates the label column, writes a
  full CSV, splits 90/10 with `train_test_split(test_size=0.1,
  random_state=42)` and writes train/test CSVs.
* `feature_selection_and_split`: mean-imputes, fits a
  `RandomForestClassifier(n_estimators=n_estimators_num, random_state=42)`,
  sorts the features by importance descending, keeps the top half, and then
  performs the same concatenate / write / split / write sequence.

Modelling conventions:

* A DataFrame cell is `Option ℚ`; `none` models a missing value (NaN).
* The principal axes produced by the SVD inside `PCA.fit_transform` are
  irrational in general, so they enter the model as an explicit parameter
  `axes`; the projection itself (centering followed by dot products against
  the axes) and the shape/error behaviour of `PCA` are modelled exactly.
  No claim below depends on the numeric values of the axes.
* The per-feature importance vector produced by `rf.feature_importances_`
  is a deterministic function of the input data, `n_estimators_num` and the
  fixed seed 42; it enters the model as the explicit parameter `imp`.
* The row permutation drawn by `train_test_split` from `RandomState(42)` is
  a deterministic function of the seed and the row count; it enters the
  model as the explicit parameter `perm`.  sklearn takes
  `n_test = ceil(test_size * n)`, raises a ValueError when the remaining
  train set `n - n_test` would be empty, and otherwise uses the first
  `n_test` entries of the permutation as the test indices and the rest as
  the train indices.  Both notebook functions write the full CSV before
  splitting, so this split failure occurs after the first write.
* File output is modelled as the chronologically ordered list of
  `(filename, frame)` writes performed by the run up to the point of
  success or failure, and a file system is a map `String → Option String`
  updated by serialized writes.
-/

namespace DimRed

/-- A missing-or-present numeric cell of a pandas DataFrame; `none` is NaN. -/
abbrev Cell := Option ℚ

/-- A pandas DataFrame: named columns and rows of cells. -/
structure DataFrame where
  cols : List String
  rows : List (List Cell)
  deriving DecidableEq, Repr, Inhabited

/-- The DataFrame is a rectangular table: every row has one cell per column. -/
def DataFrame.Rectangular (df : DataFrame) : Prop :=
  ∀ r ∈ df.rows, r.length = df.cols.length

/-- Errors raised by the underlying libraries and propagated unmodified:
`keyError c` models the pandas KeyError for a missing column label,
`pcaError k nS nF` models the sklearn ValueError raised when
`n_components = k` exceeds `min(n_samples, n_features)`, and
`splitError n` models the sklearn ValueError raised by `train_test_split`
when the resulting train set would be empty
(`n_samples - ceil(test_size * n_samples) = 0`). -/
inductive PipeError where
  | keyError (col : String)
  | pcaError (k nSamples nFeatures : Nat)
  | splitError (nSamples : Nat)
  deriving DecidableEq, Repr

/-- Column positions kept by `df.drop([c], axis=1)`. -/
def keepIdx (cols : List String) (c : String) : List Nat :=
  (List.range cols.length).filter (fun i => cols.getD i "" ≠ c)

/-- `df.drop([c], axis=1)`: drop every column labelled `c`; pandas raises
KeyError when no column has that label. -/
def dropCol (df : DataFrame) (c : String) : Except PipeError DataFrame :=
  if c ∈ df.cols then
    Except.ok
      { cols := (keepIdx df.cols c).map (fun i => df.cols.getD i ""),
        rows := df.rows.map (fun r => (keepIdx df.cols c).map (fun i => r.getD i none)) }
  else Except.error (PipeError.keyError c)

/-- `df[c]`: the column labelled `c` (first occurrence), as a cell list;
pandas raises KeyError when the label is absent. -/
def getCol (df : DataFrame) (c : String) : Except PipeError (List Cell) :=
  if c ∈ df.cols then
    Except.ok (df.rows.map (fun r => r.getD (df.cols.indexOf c) none))
  else Except.error (PipeError.keyError c)

/-- Column `j` of a cell matrix. -/
def colCells (m : List (List Cell)) (j : Nat) : List Cell :=
  m.map (fun r => r.getD j none)

/-- The present (non-missing) values of a cell list. -/
def nonMissing (xs : List Cell) : List ℚ :=
  xs.filterMap id

/-- Mean of the present values of a cell list, as computed by
`SimpleImputer(strategy=mean)` for a column with at least one present value.
(A column with no present value is outside the specified domain: the spec
declares its treatment library-dependent.) -/
def colMean (xs : List Cell) : ℚ :=
  (nonMissing xs).sum / ((nonMissing xs).length : ℚ)

/-- `SimpleImputer(missing_values=np.nan, strategy=mean).fit_transform`
on a cell matrix of width `w`: every missing cell is replaced by the mean of
the present values of its column; present cells are unchanged. -/
def imputeMatrix (m : List (List Cell)) (w : Nat) : List (List ℚ) :=
  m.map (fun r => (List.range w).map (fun j => (r.getD j none).getD (colMean (colCells m j))))

/-- Mean of column `j` of a numeric matrix. -/
def colMeanQ (m : List (List ℚ)) (j : Nat) : ℚ :=
  (m.map (fun r => r.getD j 0)).sum / (m.length : ℚ)

/-- Column-centering step of `PCA.fit_transform`. -/
def centerMatrix (m : List (List ℚ)) (w : Nat) : List (List ℚ) :=
  m.map (fun r => (List.range w).map (fun j => r.getD j 0 - colMeanQ m j))

/-- Dot product of two rational vectors. -/
def dotL (a b : List ℚ) : ℚ :=
  ((a.zip b).map (fun p => p.1 * p.2)).sum

/-- `PCA(n_components=k).fit_transform` on an `m.length × w` matrix:
fails (sklearn ValueError) when `k > min(n_samples, n_features)`; otherwise
centers the columns and projects every row onto the `k` principal axes.
The axes are the parameter `axes`; the claims below concern only the shape,
determinism and error behaviour, never the axis values. -/
def pcaFitTransform (k : Nat) (axes : List (List ℚ)) (m : List (List ℚ)) (w : Nat) :
    Except PipeError (List (List ℚ)) :=
  if k ≤ min m.length w then
    Except.ok ((centerMatrix m w).map (fun r => (List.range k).map (fun i => dotL (axes.getD i []) r)))
  else Except.error (PipeError.pcaError k m.length w)

/-- `np.argsort(importances)[::-1]`: the indices `0..n-1` sorted by score
descending.  numpy breaks ties in an unspecified order (the spec declares
tie order arbitrary); the model uses a fixed insertion sort. -/
def argsortDesc (xs : List ℚ) : List Nat :=
  List.insertionSort (fun i j => xs.getD j 0 ≤ xs.getD i 0) (List.range xs.length)

/-- `n_test` chosen by `train_test_split` for fractional `test_size`:
`ceil(test_size * n_samples)`. -/
def nTestOf (testSize : ℚ) (n : Nat) : Nat :=
  (Int.toNat ⌈testSize * (n : ℚ)⌉)

/-- Row selection by a list of positional indices (`DataFrame.iloc`). -/
def selectRows {α : Type} (rows : List α) (idx : List Nat) : List α :=
  idx.filterMap (fun i => rows.get? i)

/-- Embed a fully numeric matrix into cell rows (no cell is missing). -/
def toCells (m : List (List ℚ)) : List (List Cell) :=
  m.map (fun r => r.map some)

/-- `pd.concat([a, b], axis=1)` for two frames carrying the same row index:
columns side by side, rows zipped positionally. -/
def concatCols (a b : DataFrame) : DataFrame :=
  { cols := a.cols ++ b.cols, rows := List.zipWith (· ++ ·) a.rows b.rows }

/-- Column labels `PC1 .. PC6` given to the PCA scores. -/
def pcNames : List String :=
  (List.range 6).map (fun i => "PC" ++ toString (i + 1))

/-- Column labels `Feature_1 .. Feature_k` given to the selected features. -/
def featNames (k : Nat) : List String :=
  (List.range k).map (fun i => "Feature_" ++ toString (i + 1))

/-- The tuple returned by either notebook function: the reduced feature
frame, the label frame, the four split frames, and the pandas row indices
carried by the train and test frames. -/
structure RunOut where
  X_df : DataFrame
  y_df : DataFrame
  X_train : DataFrame
  X_test : DataFrame
  y_train : DataFrame
  y_test : DataFrame
  trainIdx : List Nat
  testIdx : List Nat
  deriving DecidableEq, Repr, Inhabited

/-- The tail shared verbatim by both notebook functions: concatenate the
reduced features with the labels, write the full CSV, split with
`train_test_split(test_size=0.1, random_state=42)` (permutation `perm`),
and write the train and test CSVs.  The first component lists the writes in
chronological order.  `train_test_split` raises a ValueError when the train
set `n - ceil(n / 10)` would be empty; since the full CSV is written before
the split, that failure leaves exactly the first write behind. -/
def splitPersist (Xdf yDf : DataFrame) (perm : List Nat) (pre : String) :
    List (String × DataFrame) × Except PipeError RunOut :=
  let combined := concatCols Xdf yDf
  let t := nTestOf (1 / 10) Xdf.rows.length
  if Xdf.rows.length - t = 0 then
    ([(pre ++ ".csv", combined)], Except.error (PipeError.splitError Xdf.rows.length))
  else
    let testIdx := perm.take t
    let trainIdx := perm.drop t
    let xTr : DataFrame := ⟨Xdf.cols, selectRows Xdf.rows trainIdx⟩
    let xTe : DataFrame := ⟨Xdf.cols, selectRows Xdf.rows testIdx⟩
    let yTr : DataFrame := ⟨yDf.cols, selectRows yDf.rows trainIdx⟩
    let yTe : DataFrame := ⟨yDf.cols, selectRows yDf.rows testIdx⟩
    ([(pre ++ ".csv", combined),
      (pre ++ "_train.csv", concatCols xTr yTr),
      (pre ++ "_test.csv", concatCols xTe yTe)],
     Except.ok ⟨Xdf, yDf, xTr, xTe, yTr, yTe, trainIdx, testIdx⟩)

/-- `process_heart_disease_data(input_filename, output_filename_prefix)`:
load (the loaded frame is `input`), take the label column, mean-impute the
remaining columns, project onto 6 principal components, name them
`PC1..PC6`, then concatenate / persist / split / persist.  The load, label
extraction, imputation and PCA failure points precede the first write; the
split failure point follows the write of the full CSV. -/
def processHeartDiseaseData (axes : List (List ℚ)) (perm : List Nat)
    (input : DataFrame) (pre : String) :
    List (String × DataFrame) × Except PipeError RunOut :=
  match dropCol input "quality", getCol input "quality" with
  | Except.error e, _ => ([], Except.error e)
  | _, Except.error e => ([], Except.error e)
  | Except.ok xdf, Except.ok y =>
    match pcaFitTransform 6 axes (imputeMatrix xdf.rows xdf.cols.length) xdf.cols.length with
    | Except.error e => ([], Except.error e)
    | Except.ok xpca =>
      splitPersist ⟨pcNames, toCells xpca⟩ ⟨["quality"], y.map (fun c => [c])⟩ perm pre

/-- `feature_selection_and_split(input_filename, output_filename_prefix,
n_estimators_num)`: load, mean-impute, fit the forest (its importance
vector is the parameter `imp`), sort the feature indices by importance
descending, keep the first `len // 2`, name them `Feature_1..Feature_k`,
then concatenate / persist / split / persist.  `n_estimators_num`
influences the run only through `imp`.  The load and label-extraction
failure points precede the first write; the split failure point follows the
write of the full CSV. -/
def featureSelectionAndSplit (imp : List ℚ) (perm : List Nat)
    (input : DataFrame) (pre : String) :
    List (String × DataFrame) × Except PipeError RunOut :=
  match dropCol input "quality", getCol input "quality" with
  | Except.error e, _ => ([], Except.error e)
  | _, Except.error e => ([], Except.error e)
  | Except.ok xdf, Except.ok y =>
    let X := imputeMatrix xdf.rows xdf.cols.length
    let indices := argsortDesc imp
    let numFeatures := indices.length / 2
    let selected := indices.take numFeatures
    let Xsel := X.map (fun r => selected.map (fun j => r.getD j 0))
    splitPersist ⟨featNames numFeatures, toCells Xsel⟩
      ⟨["quality"], y.map (fun c => [c])⟩ perm pre

/-- CSV text of one cell: pandas writes the empty string for NaN. -/
def cellStr : Cell → String
  | none => ""
  | some q => toString q

/-- CSV text of one data row. -/
def rowStr (r : List Cell) : String :=
  String.intercalate "," (r.map cellStr)

/-- `df.to_csv(path, index=False)` body: a header row of the column labels
followed by one line per data row, with no row-index column. -/
def toCsv (df : DataFrame) : String :=
  String.intercalate "\n" (String.intercalate "," df.cols :: df.rows.map rowStr) ++ "\n"

/-- A file system: contents by path. -/
def FileSys : Type := String → Option String

/-- Writing a file replaces whatever was at that path. -/
def writeFile (fs : FileSys) (name content : String) : FileSys :=
  fun p => if p = name then some content else fs p

/-- Apply the serialized writes of a run, in chronological order. -/
def runWrites (fs : FileSys) (ws : List (String × DataFrame)) : FileSys :=
  ws.foldl (fun f w => writeFile f w.1 (toCsv w.2)) fs

/-- The empty file system. -/
def emptyFS : FileSys := fun _ => none

/-! ### Concrete sample data used by the witnesses -/

/-- A small valid input: six feature columns, a quality column, six rows. -/
def sampleInput : DataFrame :=
  ⟨["f1", "f2", "f3", "f4", "f5", "f6", "quality"],
   [[some 1, some 0, some 0, some 0, some 0, some 0, some 5],
    [some 0, some 1, some 0, some 0, some 0, some 0, some 6],
    [some 0, some 0, some 1, some 0, some 0, some 0, some 7],
    [some 0, some 0, some 0, some 1, some 0, some 0, some 5],
    [some 0, some 0, some 0, some 0, some 1, some 0, some 6],
    [some 0, some 0, some 0, some 0, some 0, some 1, some 7]]⟩

/-- Sample principal axes (their values are irrelevant to every claim). -/
def sampleAxes : List (List ℚ) :=
  [[1, 0, 0, 0, 0, 0], [0, 1, 0, 0, 0, 0], [0, 0, 1, 0, 0, 0],
   [0, 0, 0, 1, 0, 0], [0, 0, 0, 0, 1, 0], [0, 0, 0, 0, 0, 1]]

/-- A sample seed-42 row permutation of six rows. -/
def samplePerm6 : List Nat := [3, 0, 5, 1, 4, 2]

/-- A sample forest importance vector for six features. -/
def sampleImp : List ℚ := [3, 1, 4, 1, 5, 9]

/-- The write list of the sample PCA run. -/
def sampleProcWrites : List (String × DataFrame) :=
  (processHeartDiseaseData sampleAxes samplePerm6 sampleInput "p").1

/-- The returned tuple of the sample PCA run. -/
def sampleProcOut : RunOut :=
  match (processHeartDiseaseData sampleAxes samplePerm6 sampleInput "p").2 with
  | Except.ok o => o
  | Except.error _ => default

/-- The write list of the sample feature-selection run. -/
def sampleFeatWrites : List (String × DataFrame) :=
  (featureSelectionAndSplit sampleImp samplePerm6 sampleInput "q").1

/-- The returned tuple of the sample feature-selection run. -/
def sampleFeatOut : RunOut :=
  match (featureSelectionAndSplit sampleImp samplePerm6 sampleInput "q").2 with
  | Except.ok o => o
  | Except.error _ => default

/-- A one-row valid input: the PCA pipeline fails at the PCA step before
any write, while the feature-selection pipeline writes the full CSV and
then fails at the split (empty train set). -/
def sampleOneRow : DataFrame :=
  ⟨["a", "b", "quality"], [[some 1, some 2, some 5]]⟩

/-- A sample importance vector for the two features of `sampleOneRow`. -/
def sampleImp2 : List ℚ := [3, 1]

/-- The seed-42 permutation of a single row. -/
def samplePerm1 : List Nat := [0]

/-- The write list of the failing one-row feature-selection run: exactly
the full CSV, written before the split raises. -/
def sampleFailWrites : List (String × DataFrame) :=
  (featureSelectionAndSplit sampleImp2 samplePerm1 sampleOneRow "q").1

/-- A thin input: three feature columns plus quality, five rows, so PCA with
six components must fail. -/
def sampleThin : DataFrame :=
  ⟨["a", "b", "c", "quality"],
   [[some 1, some 2, some 3, some 5],
    [some 4, some 5, some 6, some 6],
    [some 7, some 8, some 9, some 7],
    [some 1, some 1, some 1, some 5],
    [some 2, some 2, some 2, some 6]]⟩

/-! ### Inversion lemmas for the pipeline steps -/

/-- Successful `dropCol` exposes the kept columns and mapped rows. -/
theorem dropCol_ok_inv (df : DataFrame) (c : String) (xdf : DataFrame)
    (h : dropCol df c = Except.ok xdf) :
    c ∈ df.cols ∧
    xdf.cols = (keepIdx df.cols c).map (fun i => df.cols.getD i "") ∧
    xdf.rows = df.rows.map (fun r => (keepIdx df.cols c).map (fun i => r.getD i none)) := by
  unfold dropCol at h
  split at h
  · obtain rfl := (Except.ok.inj h).symm
    exact ⟨by assumption, rfl, rfl⟩
  · cases h

/-- Successful `getCol` exposes the extracted cells. -/
theorem getCol_ok_inv (df : DataFrame) (c : String) (y : List Cell)
    (h : getCol df c = Except.ok y) :
    c ∈ df.cols ∧ y = df.rows.map (fun r => r.getD (df.cols.indexOf c) none) := by
  unfold getCol at h
  split at h
  · exact ⟨by assumption, (Except.ok.inj h).symm⟩
  · cases h

/-- Successful `pcaFitTransform` exposes the projected matrix and the
dimension bound. -/
theorem pca_ok_inv (k : Nat) (axes m : List (List ℚ)) (w : Nat) (xpca : List (List ℚ))
    (h : pcaFitTransform k axes m w = Except.ok xpca) :
    k ≤ min m.length w ∧
    xpca = (centerMatrix m w).map (fun r => (List.range k).map (fun i => dotL (axes.getD i []) r)) := by
  unfold pcaFitTransform at h
  split at h
  · exact ⟨by assumption, (Except.ok.inj h).symm⟩
  · cases h

/-- A successful PCA run is the shared concatenate/persist/split tail applied
to the PC frame and the label frame. -/
theorem process_ok_inv (axes : List (List ℚ)) (perm : List Nat) (input : DataFrame)
    (pre : String) (ws : List (String × DataFrame)) (out : RunOut)
    (h : processHeartDiseaseData axes perm input pre = (ws, Except.ok out)) :
    ∃ xdf y xpca,
      dropCol input "quality" = Except.ok xdf ∧
      getCol input "quality" = Except.ok y ∧
      pcaFitTransform 6 axes (imputeMatrix xdf.rows xdf.cols.length) xdf.cols.length
        = Except.ok xpca ∧
      splitPersist ⟨pcNames, toCells xpca⟩ ⟨["quality"], y.map (fun c => [c])⟩ perm pre
        = (ws, Except.ok out) := by
  unfold processHeartDiseaseData at h
  cases hd : dropCol input "quality" with
  | error e => rw [hd] at h; simp at h
  | ok xdf =>
    cases hy : getCol input "quality" with
    | error e => rw [hd, hy] at h; simp at h
    | ok y =>
      rw [hd, hy] at h
      dsimp only at h
      cases hp : pcaFitTransform 6 axes (imputeMatrix xdf.rows xdf.cols.length) xdf.cols.length with
      | error e => rw [hp] at h; simp at h
      | ok xpca =>
        rw [hp] at h
        exact ⟨xdf, y, xpca, rfl, rfl, hp, h⟩

/-- A successful feature-selection run is the shared tail applied to the
selected-feature frame and the label frame. -/
theorem feature_ok_inv (imp : List ℚ) (perm : List Nat) (input : DataFrame)
    (pre : String) (ws : List (String × DataFrame)) (out : RunOut)
    (h : featureSelectionAndSplit imp perm input pre = (ws, Except.ok out)) :
    ∃ xdf y,
      dropCol input "quality" = Except.ok xdf ∧
      getCol input "quality" = Except.ok y ∧
      splitPersist
          ⟨featNames ((argsortDesc imp).length / 2),
           toCells ((imputeMatrix xdf.rows xdf.cols.length).map
             (fun r => ((argsortDesc imp).take ((argsortDesc imp).length / 2)).map
               (fun j => r.getD j 0)))⟩
          ⟨["quality"], y.map (fun c => [c])⟩ perm pre = (ws, Except.ok out) := by
  unfold featureSelectionAndSplit at h
  cases hd : dropCol input "quality" with
  | error e => rw [hd] at h; simp at h
  | ok xdf =>
    cases hy : getCol input "quality" with
    | error e => rw [hd, hy] at h; simp at h
    | ok y =>
      rw [hd, hy] at h
      dsimp only at h
      exact ⟨xdf, y, rfl, rfl, h⟩

/-! ### Success and failure shapes of the shared tail -/

/-- A successful shared tail requires a nonempty train set and returns the
split frames and the three chronological writes. -/
theorem splitPersist_ok_inv (Xdf yDf : DataFrame) (perm : List Nat) (pre : String)
    (ws : List (String × DataFrame)) (out : RunOut)
    (h : splitPersist Xdf yDf perm pre = (ws, Except.ok out)) :
    Xdf.rows.length - nTestOf (1 / 10) Xdf.rows.length ≠ 0 ∧
    out = ⟨Xdf, yDf,
      ⟨Xdf.cols, selectRows Xdf.rows (perm.drop (nTestOf (1 / 10) Xdf.rows.length))⟩,
      ⟨Xdf.cols, selectRows Xdf.rows (perm.take (nTestOf (1 / 10) Xdf.rows.length))⟩,
      ⟨yDf.cols, selectRows yDf.rows (perm.drop (nTestOf (1 / 10) Xdf.rows.length))⟩,
      ⟨yDf.cols, selectRows yDf.rows (perm.take (nTestOf (1 / 10) Xdf.rows.length))⟩,
      perm.drop (nTestOf (1 / 10) Xdf.rows.length),
      perm.take (nTestOf (1 / 10) Xdf.rows.length)⟩ ∧
    ws = [(pre ++ ".csv", concatCols Xdf yDf),
          (pre ++ "_train.csv",
           concatCols ⟨Xdf.cols, selectRows Xdf.rows (perm.drop (nTestOf (1 / 10) Xdf.rows.length))⟩
             ⟨yDf.cols, selectRows yDf.rows (perm.drop (nTestOf (1 / 10) Xdf.rows.length))⟩),
          (pre ++ "_test.csv",
           concatCols ⟨Xdf.cols, selectRows Xdf.rows (perm.take (nTestOf (1 / 10) Xdf.rows.length))⟩
             ⟨yDf.cols, selectRows yDf.rows (perm.take (nTestOf (1 / 10) Xdf.rows.length))⟩)] := by
  unfold splitPersist at h
  dsimp only at h
  split at h
  · simp at h
  · simp only [Prod.mk.injEq] at h
    exact ⟨by assumption, (Except.ok.inj h.2).symm, h.1.symm⟩

/-- A failing shared tail is exactly the empty-train-set ValueError of
`train_test_split`, raised after the single write of the full CSV. -/
theorem splitPersist_error_inv (Xdf yDf : DataFrame) (perm : List Nat) (pre : String)
    (ws : List (String × DataFrame)) (e : PipeError)
    (h : splitPersist Xdf yDf perm pre = (ws, Except.error e)) :
    Xdf.rows.length - nTestOf (1 / 10) Xdf.rows.length = 0 ∧
    ws = [(pre ++ ".csv", concatCols Xdf yDf)] ∧
    e = PipeError.splitError Xdf.rows.length := by
  unfold splitPersist at h
  dsimp only at h
  split at h
  · simp only [Prod.mk.injEq] at h
    exact ⟨by assumption, h.1.symm, (Except.error.inj h.2).symm⟩
  · simp at h

/-- A failing `dropCol` is the KeyError for the missing label. -/
theorem dropCol_error_inv (df : DataFrame) (c : String) (e : PipeError)
    (h : dropCol df c = Except.error e) : c ∉ df.cols ∧ e = PipeError.keyError c := by
  unfold dropCol at h
  split at h
  · cases h
  · exact ⟨by assumption, (Except.error.inj h).symm⟩

/-- A failing `getCol` is the KeyError for the missing label. -/
theorem getCol_error_inv (df : DataFrame) (c : String) (e : PipeError)
    (h : getCol df c = Except.error e) : c ∉ df.cols ∧ e = PipeError.keyError c := by
  unfold getCol at h
  split at h
  · cases h
  · exact ⟨by assumption, (Except.error.inj h).symm⟩

/-- A failing `pcaFitTransform` is the dimension ValueError. -/
theorem pca_error_inv (k : Nat) (axes m : List (List ℚ)) (w : Nat) (e : PipeError)
    (h : pcaFitTransform k axes m w = Except.error e) :
    ¬ k ≤ min m.length w ∧ e = PipeError.pcaError k m.length w := by
  unfold pcaFitTransform at h
  split at h
  · cases h
  · exact ⟨by assumption, (Except.error.inj h).symm⟩

/-! ### Computation rules for the split size and the sample runs -/

theorem nTestOf_cast (n : Nat) : (nTestOf (1 / 10) n : ℤ) = ⌈(1 / 10 : ℚ) * n⌉ := by
  unfold nTestOf
  exact Int.toNat_of_nonneg (Int.ceil_nonneg (by positivity))

/-- The sklearn test-set size for test fraction one tenth, computed in ℕ:
`ceil(n / 10) = (n + 9) / 10`. -/
theorem nTestOf_tenth (n : Nat) : nTestOf (1 / 10) n = (n + 9) / 10 := by
  set q := (n + 9) / 10 with hq
  have hle : 10 * q ≤ n + 9 := by omega
  have hge : n ≤ 10 * q := by omega
  have hcast : (nTestOf (1 / 10) n : ℤ) = (q : ℤ) := by
    rw [nTestOf_cast]
    refine Int.ceil_eq_iff.mpr ⟨?_, ?_⟩
    · have hc : ((10 * q : ℕ) : ℚ) ≤ ((n + 9 : ℕ) : ℚ) := by exact_mod_cast hle
      push_cast at hc ⊢
      linarith
    · have hc : ((n : ℕ) : ℚ) ≤ ((10 * q : ℕ) : ℚ) := by exact_mod_cast hge
      push_cast at hc ⊢
      linarith
  exact_mod_cast hcast

/-- Computation rule for the shared tail when the train set is nonempty. -/
theorem splitPersist_ok_eq (Xdf yDf : DataFrame) (perm : List Nat) (pre : String)
    (h : Xdf.rows.length - nTestOf (1 / 10) Xdf.rows.length ≠ 0) :
    splitPersist Xdf yDf perm pre =
      ([(pre ++ ".csv", concatCols Xdf yDf),
        (pre ++ "_train.csv",
         concatCols ⟨Xdf.cols, selectRows Xdf.rows (perm.drop (nTestOf (1 / 10) Xdf.rows.length))⟩
           ⟨yDf.cols, selectRows yDf.rows (perm.drop (nTestOf (1 / 10) Xdf.rows.length))⟩),
        (pre ++ "_test.csv",
         concatCols ⟨Xdf.cols, selectRows Xdf.rows (perm.take (nTestOf (1 / 10) Xdf.rows.length))⟩
           ⟨yDf.cols, selectRows yDf.rows (perm.take (nTestOf (1 / 10) Xdf.rows.length))⟩)],
       Except.ok ⟨Xdf, yDf,
        ⟨Xdf.cols, selectRows Xdf.rows (perm.drop (nTestOf (1 / 10) Xdf.rows.length))⟩,
        ⟨Xdf.cols, selectRows Xdf.rows (perm.take (nTestOf (1 / 10) Xdf.rows.length))⟩,
        ⟨yDf.cols, selectRows yDf.rows (perm.drop (nTestOf (1 / 10) Xdf.rows.length))⟩,
        ⟨yDf.cols, selectRows yDf.rows (perm.take (nTestOf (1 / 10) Xdf.rows.length))⟩,
        perm.drop (nTestOf (1 / 10) Xdf.rows.length),
        perm.take (nTestOf (1 / 10) Xdf.rows.length)⟩) := by
  unfold splitPersist
  dsimp only
  rw [if_neg h]

/-- Computation rule for the shared tail when the train set would be
empty. -/
theorem splitPersist_fail_eq (Xdf yDf : DataFrame) (perm : List Nat) (pre : String)
    (h : Xdf.rows.length - nTestOf (1 / 10) Xdf.rows.length = 0) :
    splitPersist Xdf yDf perm pre =
      ([(pre ++ ".csv", concatCols Xdf yDf)],
       Except.error (PipeError.splitError Xdf.rows.length)) := by
  unfold splitPersist
  dsimp only
  rw [if_pos h]

/-- The six-row sample PCA run succeeds, returning its write list and
output tuple. -/
theorem sampleProcRun_eq :
    processHeartDiseaseData sampleAxes samplePerm6 sampleInput "p" =
      (sampleProcWrites, Except.ok sampleProcOut) := by
  have h6 : (6 : Nat) - nTestOf (1 / 10) 6 ≠ 0 := by
    rw [nTestOf_tenth]
    decide
  obtain ⟨ws, o, hE⟩ : ∃ ws o,
      processHeartDiseaseData sampleAxes samplePerm6 sampleInput "p" = (ws, Except.ok o) :=
    ⟨_, _, by
      show splitPersist _ _ samplePerm6 "p" = _
      rw [splitPersist_ok_eq]
      exact h6⟩
  have hw : sampleProcWrites = ws := by
    unfold sampleProcWrites
    rw [hE]
  have ho : sampleProcOut = o := by
    unfold sampleProcOut
    rw [hE]
  rw [hw, ho]
  exact hE

/-- The six-row sample feature-selection run succeeds, returning its write
list and output tuple. -/
theorem sampleFeatRun_eq :
    featureSelectionAndSplit sampleImp samplePerm6 sampleInput "q" =
      (sampleFeatWrites, Except.ok sampleFeatOut) := by
  have h6 : (6 : Nat) - nTestOf (1 / 10) 6 ≠ 0 := by
    rw [nTestOf_tenth]
    decide
  obtain ⟨ws, o, hE⟩ : ∃ ws o,
      featureSelectionAndSplit sampleImp samplePerm6 sampleInput "q" = (ws, Except.ok o) :=
    ⟨_, _, by
      show splitPersist _ _ samplePerm6 "q" = _
      rw [splitPersist_ok_eq]
      exact h6⟩
  have hw : sampleFeatWrites = ws := by
    unfold sampleFeatWrites
    rw [hE]
  have ho : sampleFeatOut = o := by
    unfold sampleFeatOut
    rw [hE]
  rw [hw, ho]
  exact hE

/-- The one-row sample feature-selection run writes the full CSV and then
fails at the split with the empty-train-set error. -/
theorem sampleFailRun_eq :
    featureSelectionAndSplit sampleImp2 samplePerm1 sampleOneRow "q" =
      (sampleFailWrites, Except.error (PipeError.splitError 1)) := by
  have h1 : (1 : Nat) - nTestOf (1 / 10) 1 = 0 := by
    rw [nTestOf_tenth]
  obtain ⟨ws, hE⟩ : ∃ ws,
      featureSelectionAndSplit sampleImp2 samplePerm1 sampleOneRow "q" =
        (ws, Except.error (PipeError.splitError 1)) :=
    ⟨_, by
      show splitPersist _ _ samplePerm1 "q" = _
      rw [splitPersist_fail_eq]
      · rfl
      · exact h1⟩
  have hw : sampleFailWrites = ws := by
    unfold sampleFailWrites
    rw [hE]
  rw [hw]
  exact hE

/-! ### Claim theorems -/

/-- Claim C5: running either pipeline twice on an identical input with
identical parameters produces identical results, including byte-identical
serialized CSV outputs.  In the model every piece of seed-derived library
randomness (the seed-42 permutation, the forest importances, the principal
axes) is an explicit argument fixed by the seed and the input, so two runs
receive equal arguments and yield equal outputs. -/
theorem pipelines_deterministic (axes : List (List ℚ)) (perm : List Nat) (imp : List ℚ)
    (input input2 : DataFrame) (pre : String) (h : input = input2) :
    processHeartDiseaseData axes perm input pre = processHeartDiseaseData axes perm input2 pre ∧
    featureSelectionAndSplit imp perm input pre = featureSelectionAndSplit imp perm input2 pre ∧
    runWrites emptyFS (processHeartDiseaseData axes perm input pre).1 =
      runWrites emptyFS (processHeartDiseaseData axes perm input2 pre).1 ∧
    runWrites emptyFS (featureSelectionAndSplit imp perm input pre).1 =
      runWrites emptyFS (featureSelectionAndSplit imp perm input2 pre).1 := by
  subst h
  exact ⟨rfl, rfl, rfl, rfl⟩

/-- Witness for C5 at the concrete sample run. -/
theorem pipelines_deterministic_witness :
    sampleInput = sampleInput ∧
    (processHeartDiseaseData sampleAxes samplePerm6 sampleInput "p" =
        processHeartDiseaseData sampleAxes samplePerm6 sampleInput "p" ∧
      featureSelectionAndSplit sampleImp samplePerm6 sampleInput "p" =
        featureSelectionAndSplit sampleImp samplePerm6 sampleInput "p" ∧
      runWrites emptyFS (processHeartDiseaseData sampleAxes samplePerm6 sampleInput "p").1 =
        runWrites emptyFS (processHeartDiseaseData sampleAxes samplePerm6 sampleInput "p").1 ∧
      runWrites emptyFS (featureSelectionAndSplit sampleImp samplePerm6 sampleInput "p").1 =
        runWrites emptyFS (featureSelectionAndSplit sampleImp samplePerm6 sampleInput "p").1) :=
  ⟨rfl, pipelines_deterministic sampleAxes samplePerm6 sampleImp sampleInput sampleInput "p" rfl⟩

/-- The train/test outcome of the shared tail (indices on success, the
empty-train error on failure) depends only on the row count of the feature
frame, not on its columns or values. -/
theorem splitPersist_idx_congr (A1 A2 B : DataFrame) (perm : List Nat) (pre1 pre2 : String)
    (hlen : A1.rows.length = A2.rows.length) :
    (splitPersist A1 B perm pre1).2.map (fun o => (o.trainIdx, o.testIdx)) =
    (splitPersist A2 B perm pre2).2.map (fun o => (o.trainIdx, o.testIdx)) := by
  unfold splitPersist
  dsimp only
  rw [hlen]
  by_cases hc : A2.rows.length - nTestOf (1 / 10) A2.rows.length = 0
  · rw [if_pos hc, if_pos hc]
  · rw [if_neg hc, if_neg hc]
    rfl

/-- Claim C10: for a fixed input and fixed seed-42 permutation, the
importance vector (the only channel through which `n_estimators_num` can
influence the run) has no effect on which row indices land in the train set
and which in the test set. -/
theorem split_ignores_importances (imp1 imp2 : List ℚ) (perm : List Nat)
    (input : DataFrame) (pre : String) :
    ((featureSelectionAndSplit imp1 perm input pre).2.map (fun o => (o.trainIdx, o.testIdx))) =
    ((featureSelectionAndSplit imp2 perm input pre).2.map (fun o => (o.trainIdx, o.testIdx))) := by
  unfold featureSelectionAndSplit
  cases hd : dropCol input "quality" with
  | error e =>
    cases hy : getCol input "quality" with
    | error e2 => rfl
    | ok y => rfl
  | ok xdf =>
    cases hy : getCol input "quality" with
    | error e => rfl
    | ok y =>
      dsimp only
      exact splitPersist_idx_congr _ _ _ perm pre pre (by simp [toCells])

/-- Write-list anatomy of a failing PCA run: the load, label-extraction and
PCA failures occur before any write; a split failure occurs right after the
write of the full CSV. -/
theorem process_error_writes (axes : List (List ℚ)) (perm : List Nat) (input : DataFrame)
    (pre : String) (ws : List (String × DataFrame)) (e : PipeError)
    (h : processHeartDiseaseData axes perm input pre = (ws, Except.error e)) :
    (ws = [] ∧ ((∃ c, e = PipeError.keyError c) ∨ ∃ k a b, e = PipeError.pcaError k a b)) ∨
    (∃ d m, ws = [(pre ++ ".csv", d)] ∧ e = PipeError.splitError m) := by
  unfold processHeartDiseaseData at h
  cases hd : dropCol input "quality" with
  | error e2 =>
    obtain ⟨-, rfl⟩ := dropCol_error_inv input "quality" e2 hd
    rw [hd] at h
    cases hy : getCol input "quality" with
    | error e3 =>
      rw [hy] at h
      dsimp only at h
      simp only [Prod.mk.injEq] at h
      exact Or.inl ⟨h.1.symm, Or.inl ⟨"quality", (Except.error.inj h.2).symm⟩⟩
    | ok y =>
      rw [hy] at h
      dsimp only at h
      simp only [Prod.mk.injEq] at h
      exact Or.inl ⟨h.1.symm, Or.inl ⟨"quality", (Except.error.inj h.2).symm⟩⟩
  | ok xdf =>
    cases hy : getCol input "quality" with
    | error e3 =>
      obtain ⟨-, rfl⟩ := getCol_error_inv input "quality" e3 hy
      rw [hd, hy] at h
      dsimp only at h
      simp only [Prod.mk.injEq] at h
      exact Or.inl ⟨h.1.symm, Or.inl ⟨"quality", (Except.error.inj h.2).symm⟩⟩
    | ok y =>
      rw [hd, hy] at h
      dsimp only at h
      cases hp : pcaFitTransform 6 axes (imputeMatrix xdf.rows xdf.cols.length)
          xdf.cols.length with
      | error e4 =>
        obtain ⟨-, rfl⟩ := pca_error_inv 6 axes (imputeMatrix xdf.rows xdf.cols.length)
          xdf.cols.length e4 hp
        rw [hp] at h
        dsimp only at h
        simp only [Prod.mk.injEq] at h
        exact Or.inl ⟨h.1.symm, Or.inr
          ⟨6, (imputeMatrix xdf.rows xdf.cols.length).length, xdf.cols.length,
           (Except.error.inj h.2).symm⟩⟩
      | ok xpca =>
        rw [hp] at h
        obtain ⟨-, hws, rfl⟩ := splitPersist_error_inv _ _ perm pre ws e h
        exact Or.inr ⟨_, _, hws, rfl⟩

/-- Write-list anatomy of a failing feature-selection run: the load and
label-extraction failures occur before any write; a split failure occurs
right after the write of the full CSV. -/
theorem feature_error_writes (imp : List ℚ) (perm : List Nat) (input : DataFrame)
    (pre : String) (ws : List (String × DataFrame)) (e : PipeError)
    (h : featureSelectionAndSplit imp perm input pre = (ws, Except.error e)) :
    (ws = [] ∧ ∃ c, e = PipeError.keyError c) ∨
    (∃ d m, ws = [(pre ++ ".csv", d)] ∧ e = PipeError.splitError m) := by
  unfold featureSelectionAndSplit at h
  cases hd : dropCol input "quality" with
  | error e2 =>
    obtain ⟨-, rfl⟩ := dropCol_error_inv input "quality" e2 hd
    rw [hd] at h
    cases hy : getCol input "quality" with
    | error e3 =>
      rw [hy] at h
      dsimp only at h
      simp only [Prod.mk.injEq] at h
      exact Or.inl ⟨h.1.symm, "quality", (Except.error.inj h.2).symm⟩
    | ok y =>
      rw [hy] at h
      dsimp only at h
      simp only [Prod.mk.injEq] at h
      exact Or.inl ⟨h.1.symm, "quality", (Except.error.inj h.2).symm⟩
  | ok xdf =>
    cases hy : getCol input "quality" with
    | error e3 =>
      obtain ⟨-, rfl⟩ := getCol_error_inv input "quality" e3 hy
      rw [hd, hy] at h
      dsimp only at h
      simp only [Prod.mk.injEq] at h
      exact Or.inl ⟨h.1.symm, "quality", (Except.error.inj h.2).symm⟩
    | ok y =>
      rw [hd, hy] at h
      dsimp only at h
      obtain ⟨-, hws, rfl⟩ := splitPersist_error_inv _ _ perm pre ws e h
      exact Or.inr ⟨_, _, hws, rfl⟩

/-- The empty write list leaves the file system unchanged. -/
theorem runWrites_nil (fs : FileSys) (q : String) : runWrites fs [] q = fs q := rfl

/-- A single write sets its own path and leaves every other path alone. -/
theorem runWrites_single (fs : FileSys) (nm : String) (d : DataFrame) :
    runWrites fs [(nm, d)] nm = some (toCsv d) ∧
    (∀ q, q ≠ nm → runWrites fs [(nm, d)] q = fs q) := by
  unfold runWrites
  simp only [List.foldl]
  unfold writeFile
  exact ⟨by simp, fun q hq => by rw [if_neg hq]⟩

/-- Claim C9: a failing run propagates the library error value unmodified
as its result and aborts the invocation; afterwards the file system is the
prior state updated with exactly the writes performed before the failure:
each path written before the failure holds its last-written content and
every other path is untouched.  In particular the failures raised before
the first write (the missing label column and the PCA dimension error)
leave no file written by the invocation, while the empty-train-set split
error is raised after the full CSV was written and leaves exactly that
file. -/
theorem failed_run_leaves_files_untouched (axes : List (List ℚ)) (imp : List ℚ)
    (perm : List Nat) (input : DataFrame) (pre1 pre2 : String) (e1 e2 : PipeError)
    (w1 w2 : List (String × DataFrame)) (fs : FileSys)
    (h1 : processHeartDiseaseData axes perm input pre1 = (w1, Except.error e1))
    (h2 : featureSelectionAndSplit imp perm input pre2 = (w2, Except.error e2)) :
    (∀ q, q ∉ w1.map Prod.fst → runWrites fs w1 q = fs q) ∧
    (∀ n d, (n, d) ∈ w1 → runWrites fs w1 n = some (toCsv d)) ∧
    (∀ c, e1 = PipeError.keyError c → w1 = []) ∧
    (∀ k a b, e1 = PipeError.pcaError k a b → w1 = []) ∧
    (∀ m, e1 = PipeError.splitError m → w1.map Prod.fst = [pre1 ++ ".csv"]) ∧
    (∀ q, q ∉ w2.map Prod.fst → runWrites fs w2 q = fs q) ∧
    (∀ n d, (n, d) ∈ w2 → runWrites fs w2 n = some (toCsv d)) ∧
    (∀ c, e2 = PipeError.keyError c → w2 = []) ∧
    (∀ k a b, e2 = PipeError.pcaError k a b → w2 = []) ∧
    (∀ m, e2 = PipeError.splitError m → w2.map Prod.fst = [pre2 ++ ".csv"]) := by
  have five : ∀ (pre : String) (ws : List (String × DataFrame)) (e : PipeError),
      ((ws = [] ∧ ((∃ c, e = PipeError.keyError c) ∨ ∃ k a b, e = PipeError.pcaError k a b)) ∨
        (∃ d m, ws = [(pre ++ ".csv", d)] ∧ e = PipeError.splitError m)) →
      (∀ q, q ∉ ws.map Prod.fst → runWrites fs ws q = fs q) ∧
      (∀ n d, (n, d) ∈ ws → runWrites fs ws n = some (toCsv d)) ∧
      (∀ c, e = PipeError.keyError c → ws = []) ∧
      (∀ k a b, e = PipeError.pcaError k a b → ws = []) ∧
      (∀ m, e = PipeError.splitError m → ws.map Prod.fst = [pre ++ ".csv"]) := by
    rintro pre ws e (⟨rfl, herr⟩ | ⟨d, m, rfl, rfl⟩)
    · refine ⟨fun q _ => rfl, fun n d hn => absurd hn (List.not_mem_nil _),
        fun _ _ => rfl, fun _ _ _ _ => rfl, fun m2 hm => ?_⟩
      rcases herr with ⟨c, rfl⟩ | ⟨k, a, b, rfl⟩ <;> cases hm
    · obtain ⟨hw, hq⟩ := runWrites_single fs (pre ++ ".csv") d
      refine ⟨?_, ?_, ?_, ?_, fun m2 hm => rfl⟩
      · intro q hqn
        simp only [List.map_cons, List.map_nil, List.mem_cons, List.not_mem_nil,
          or_false] at hqn
        exact hq q hqn
      · intro n d2 hn
        simp only [List.mem_singleton, Prod.mk.injEq] at hn
        obtain ⟨rfl, rfl⟩ := hn
        exact hw
      · intro c hc
        cases hc
      · intro k a b hc
        cases hc
  have hf1 := process_error_writes axes perm input pre1 w1 e1 h1
  have hf2 := feature_error_writes imp perm input pre2 w2 e2 h2
  have hf2a : (w2 = [] ∧ ((∃ c, e2 = PipeError.keyError c) ∨
      ∃ k a b, e2 = PipeError.pcaError k a b)) ∨
      (∃ d m, w2 = [(pre2 ++ ".csv", d)] ∧ e2 = PipeError.splitError m) := by
    rcases hf2 with ⟨hw, hc⟩ | hr
    · exact Or.inl ⟨hw, Or.inl hc⟩
    · exact Or.inr hr
  obtain ⟨a1, a2, a3, a4, a5⟩ := five pre1 w1 e1 hf1
  obtain ⟨b1, b2, b3, b4, b5⟩ := five pre2 w2 e2 hf2a
  exact ⟨a1, a2, a3, a4, a5, b1, b2, b3, b4, b5⟩

/-- Witness for C9 on a one-row input: the PCA pipeline fails before any
write (dimension error, empty write list) while the feature-selection
pipeline writes the full CSV and then fails at the split, leaving exactly
that file. -/
theorem failed_run_leaves_files_untouched_witness :
    processHeartDiseaseData sampleAxes samplePerm1 sampleOneRow "p" =
        ([], Except.error (PipeError.pcaError 6 1 2)) ∧
    featureSelectionAndSplit sampleImp2 samplePerm1 sampleOneRow "q" =
        (sampleFailWrites, Except.error (PipeError.splitError 1)) ∧
    ((∀ q, q ∉ (([] : List (String × DataFrame)).map Prod.fst) →
        runWrites emptyFS [] q = emptyFS q) ∧
      (∀ n d, (n, d) ∈ ([] : List (String × DataFrame)) →
        runWrites emptyFS [] n = some (toCsv d)) ∧
      (∀ c, PipeError.pcaError 6 1 2 = PipeError.keyError c →
        ([] : List (String × DataFrame)) = []) ∧
      (∀ k a b, PipeError.pcaError 6 1 2 = PipeError.pcaError k a b →
        ([] : List (String × DataFrame)) = []) ∧
      (∀ m, PipeError.pcaError 6 1 2 = PipeError.splitError m →
        (([] : List (String × DataFrame)).map Prod.fst) = ["p" ++ ".csv"]) ∧
      (∀ q, q ∉ sampleFailWrites.map Prod.fst →
        runWrites emptyFS sampleFailWrites q = emptyFS q) ∧
      (∀ n d, (n, d) ∈ sampleFailWrites →
        runWrites emptyFS sampleFailWrites n = some (toCsv d)) ∧
      (∀ c, PipeError.splitError 1 = PipeError.keyError c → sampleFailWrites = []) ∧
      (∀ k a b, PipeError.splitError 1 = PipeError.pcaError k a b → sampleFailWrites = []) ∧
      (∀ m, PipeError.splitError 1 = PipeError.splitError m →
        sampleFailWrites.map Prod.fst = ["q" ++ ".csv"])) :=
  ⟨rfl, sampleFailRun_eq,
   failed_run_leaves_files_untouched sampleAxes sampleImp2 samplePerm1 sampleOneRow "p" "q"
     (PipeError.pcaError 6 1 2) (PipeError.splitError 1) [] sampleFailWrites emptyFS rfl
     sampleFailRun_eq⟩

/-- Claim C7: when the feature frame left after dropping the quality column
has fewer than 6 columns, or the input has fewer than 6 rows, the PCA step
raises (the sklearn ValueError on `n_components > min(n_samples,
n_features)`) and `process_heart_disease_data` fails without producing a
result or a write. -/
theorem pca_insufficient_dimensions (axes : List (List ℚ)) (perm : List Nat)
    (input : DataFrame) (pre : String) (xdf : DataFrame)
    (hdrop : dropCol input "quality" = Except.ok xdf)
    (hlow : xdf.cols.length < 6 ∨ input.rows.length < 6) :
    processHeartDiseaseData axes perm input pre =
      ([], Except.error (PipeError.pcaError 6 input.rows.length xdf.cols.length)) := by
  obtain ⟨hq, hcols, hrows⟩ := dropCol_ok_inv input "quality" xdf hdrop
  have hylen : getCol input "quality" =
      Except.ok (input.rows.map (fun r => r.getD (input.cols.indexOf "quality") none)) := by
    unfold getCol
    rw [if_pos hq]
  have hmlen : (imputeMatrix xdf.rows xdf.cols.length).length = input.rows.length := by
    rw [imputeMatrix, List.length_map, hrows, List.length_map]
  have hpca : pcaFitTransform 6 axes (imputeMatrix xdf.rows xdf.cols.length) xdf.cols.length
      = Except.error (PipeError.pcaError 6 input.rows.length xdf.cols.length) := by
    unfold pcaFitTransform
    rw [if_neg, hmlen]
    rw [hmlen]
    omega
  unfold processHeartDiseaseData
  rw [hdrop, hylen]
  dsimp only
  rw [hpca]

/-- Witness for C7: a 5-row input with 3 feature columns fails at the PCA
step. -/
theorem pca_insufficient_dimensions_witness :
    dropCol sampleThin "quality" =
        Except.ok (⟨["a", "b", "c"],
          [[some 1, some 2, some 3], [some 4, some 5, some 6], [some 7, some 8, some 9],
           [some 1, some 1, some 1], [some 2, some 2, some 2]]⟩ : DataFrame) ∧
    ((⟨["a", "b", "c"],
        [[some 1, some 2, some 3], [some 4, some 5, some 6], [some 7, some 8, some 9],
         [some 1, some 1, some 1], [some 2, some 2, some 2]]⟩ : DataFrame).cols.length < 6 ∨
      sampleThin.rows.length < 6) ∧
    processHeartDiseaseData sampleAxes samplePerm6 sampleThin "p" =
      ([], Except.error (PipeError.pcaError 6 sampleThin.rows.length
        (⟨["a", "b", "c"],
          [[some 1, some 2, some 3], [some 4, some 5, some 6], [some 7, some 8, some 9],
           [some 1, some 1, some 1], [some 2, some 2, some 2]]⟩ : DataFrame).cols.length)) :=
  ⟨rfl, by decide,
   pca_insufficient_dimensions sampleAxes samplePerm6 sampleThin "p" _ rfl (by decide)⟩

/-- Claim C1: a successful PCA run returns a reduced frame with exactly the
six columns `PC1 .. PC6`, one row per input row, and six entries per row. -/
theorem pca_output_shape (axes : List (List ℚ)) (perm : List Nat) (input : DataFrame)
    (pre : String) (ws : List (String × DataFrame)) (out : RunOut)
    (h : processHeartDiseaseData axes perm input pre = (ws, Except.ok out)) :
    out.X_df.cols = ["PC1", "PC2", "PC3", "PC4", "PC5", "PC6"] ∧
    out.X_df.rows.length = input.rows.length ∧
    ∀ r ∈ out.X_df.rows, r.length = 6 := by
  obtain ⟨xdf, y, xpca, hd, hy, hp, hsp⟩ := process_ok_inv axes perm input pre ws out h
  obtain ⟨hq, hcols, hrows⟩ := dropCol_ok_inv input "quality" xdf hd
  obtain ⟨hk, hxp⟩ := pca_ok_inv 6 axes (imputeMatrix xdf.rows xdf.cols.length)
    xdf.cols.length xpca hp
  obtain ⟨hguard, hout, hws⟩ := splitPersist_ok_inv _ _ perm pre ws out hsp
  subst hout
  refine ⟨?_, ?_, ?_⟩
  · exact (by decide : pcNames = ["PC1", "PC2", "PC3", "PC4", "PC5", "PC6"])
  · show (toCells xpca).length = input.rows.length
    rw [hxp]
    simp only [toCells, centerMatrix, imputeMatrix, List.length_map]
    rw [hrows, List.length_map]
  · intro r hr
    replace hr : r ∈ toCells xpca := hr
    rw [hxp] at hr
    simp only [toCells, List.mem_map] at hr
    obtain ⟨r1, hr1, rfl⟩ := hr
    obtain ⟨r2, hr2, rfl⟩ := hr1
    simp

/-- Witness for C1 at the concrete sample run. -/
theorem pca_output_shape_witness :
    processHeartDiseaseData sampleAxes samplePerm6 sampleInput "p" =
        (sampleProcWrites, Except.ok sampleProcOut) ∧
    (sampleProcOut.X_df.cols = ["PC1", "PC2", "PC3", "PC4", "PC5", "PC6"] ∧
      sampleProcOut.X_df.rows.length = sampleInput.rows.length ∧
      ∀ r ∈ sampleProcOut.X_df.rows, r.length = 6) :=
  ⟨sampleProcRun_eq,
   pca_output_shape sampleAxes samplePerm6 sampleInput "p" sampleProcWrites sampleProcOut
     sampleProcRun_eq⟩

/-! ### Properties of the importance argsort -/

theorem argsortDesc_perm (xs : List ℚ) : (argsortDesc xs).Perm (List.range xs.length) :=
  List.perm_insertionSort _ _

theorem argsortDesc_length (xs : List ℚ) : (argsortDesc xs).length = xs.length := by
  rw [(argsortDesc_perm xs).length_eq, List.length_range]

theorem mem_argsortDesc (xs : List ℚ) (j : Nat) (hj : j < xs.length) : j ∈ argsortDesc xs := by
  rw [(argsortDesc_perm xs).mem_iff]
  simpa using hj

theorem argsortDesc_sorted (xs : List ℚ) :
    List.Sorted (fun i j => xs.getD j 0 ≤ xs.getD i 0) (argsortDesc xs) := by
  haveI : IsTotal Nat (fun i j => xs.getD j 0 ≤ xs.getD i 0) := ⟨fun a b => le_total _ _⟩
  haveI : IsTrans Nat (fun i j => xs.getD j 0 ≤ xs.getD i 0) :=
    ⟨fun a b c h1 h2 => le_trans h2 h1⟩
  exact List.sorted_insertionSort _ _

/-- Every index in the retained prefix of the descending argsort scores at
least as high as every index in the dropped suffix. -/
theorem argsortDesc_take_ge (xs : List ℚ) (k i j : Nat)
    (hi : i ∈ (argsortDesc xs).take k) (hj : j ∈ (argsortDesc xs).drop k) :
    xs.getD j 0 ≤ xs.getD i 0 := by
  have hs := argsortDesc_sorted xs
  unfold List.Sorted at hs
  rw [← List.take_append_drop k (argsortDesc xs), List.pairwise_append] at hs
  exact hs.2.2 i hi j hj

/-- Claim C2: a successful feature-selection run keeps exactly
`floor(n / 2)` of the `n` feature columns (using the sklearn contract that
the importance vector has one score per feature), named
`Feature_1 .. Feature_k`; the kept columns are the `floor(n / 2)` features
of highest importance: every retained index scores at least as high as every
non-retained one. -/
theorem feature_selection_semantics (imp : List ℚ) (perm : List Nat) (input : DataFrame)
    (pre : String) (ws : List (String × DataFrame)) (out : RunOut) (xdf : DataFrame)
    (hdrop : dropCol input "quality" = Except.ok xdf)
    (hlen : imp.length = xdf.cols.length)
    (h : featureSelectionAndSplit imp perm input pre = (ws, Except.ok out)) :
    out.X_df.cols.length = xdf.cols.length / 2 ∧
    out.X_df.cols = featNames (xdf.cols.length / 2) ∧
    out.X_df.rows = toCells ((imputeMatrix xdf.rows xdf.cols.length).map
      (fun r => ((argsortDesc imp).take (imp.length / 2)).map (fun j => r.getD j 0))) ∧
    (∀ i ∈ (argsortDesc imp).take (imp.length / 2),
      ∀ j < imp.length, j ∉ (argsortDesc imp).take (imp.length / 2) →
        imp.getD j 0 ≤ imp.getD i 0) := by
  obtain ⟨xdf2, y, hd2, hy2, hsp⟩ := feature_ok_inv imp perm input pre ws out h
  rw [hdrop] at hd2
  obtain rfl : xdf = xdf2 := Except.ok.inj hd2
  obtain ⟨hguard, hout, hws⟩ := splitPersist_ok_inv _ _ perm pre ws out hsp
  subst hout
  have hkeq : (argsortDesc imp).length / 2 = imp.length / 2 := by rw [argsortDesc_length]
  refine ⟨?_, ?_, ?_, ?_⟩
  · show (featNames ((argsortDesc imp).length / 2)).length = xdf.cols.length / 2
    rw [hkeq, hlen]
    simp [featNames]
  · show featNames ((argsortDesc imp).length / 2) = featNames (xdf.cols.length / 2)
    rw [hkeq, hlen]
  · show toCells _ = toCells _
    rw [hkeq]
  · intro i hi j hj hjt
    have hmem : j ∈ (argsortDesc imp).take (imp.length / 2) ++
        (argsortDesc imp).drop (imp.length / 2) := by
      rw [List.take_append_drop]
      exact mem_argsortDesc imp j hj
    rcases List.mem_append.mp hmem with hcase | hcase
    · exact absurd hcase hjt
    · exact argsortDesc_take_ge imp (imp.length / 2) i j hi hcase

/-- The feature frame of the sample input: the quality column dropped. -/
def sampleFeatXdf : DataFrame :=
  ⟨["f1", "f2", "f3", "f4", "f5", "f6"],
   [[some 1, some 0, some 0, some 0, some 0, some 0],
    [some 0, some 1, some 0, some 0, some 0, some 0],
    [some 0, some 0, some 1, some 0, some 0, some 0],
    [some 0, some 0, some 0, some 1, some 0, some 0],
    [some 0, some 0, some 0, some 0, some 1, some 0],
    [some 0, some 0, some 0, some 0, some 0, some 1]]⟩

/-- Witness for C2 at the concrete sample run. -/
theorem feature_selection_semantics_witness :
    dropCol sampleInput "quality" = Except.ok sampleFeatXdf ∧
    sampleImp.length = sampleFeatXdf.cols.length ∧
    featureSelectionAndSplit sampleImp samplePerm6 sampleInput "q" =
        (sampleFeatWrites, Except.ok sampleFeatOut) ∧
    (sampleFeatOut.X_df.cols.length = sampleFeatXdf.cols.length / 2 ∧
      sampleFeatOut.X_df.cols = featNames (sampleFeatXdf.cols.length / 2) ∧
      sampleFeatOut.X_df.rows =
        toCells ((imputeMatrix sampleFeatXdf.rows sampleFeatXdf.cols.length).map
          (fun r => ((argsortDesc sampleImp).take (sampleImp.length / 2)).map
            (fun j => r.getD j 0))) ∧
      (∀ i ∈ (argsortDesc sampleImp).take (sampleImp.length / 2),
        ∀ j < sampleImp.length, j ∉ (argsortDesc sampleImp).take (sampleImp.length / 2) →
          sampleImp.getD j 0 ≤ sampleImp.getD i 0)) :=
  ⟨rfl, by decide, sampleFeatRun_eq,
   feature_selection_semantics sampleImp samplePerm6 sampleInput "q"
     sampleFeatWrites sampleFeatOut sampleFeatXdf rfl (by decide) sampleFeatRun_eq⟩

/-! ### Indexing helpers -/

theorem getD_map_lt {α β : Type} (f : α → β) (l : List α) (i : Nat) (d : β) (d0 : α)
    (h : i < l.length) : (l.map f).getD i d = f (l.getD i d0) := by
  rw [List.getD_eq_getElem?_getD, List.getElem?_map,
    List.getElem?_eq_getElem h, List.getD_eq_getElem?_getD, List.getElem?_eq_getElem h]
  rfl

theorem getD_range_map {β : Type} (g : Nat → β) (w j : Nat) (d : β) (h : j < w) :
    ((List.range w).map g).getD j d = g j := by
  rw [getD_map_lt g (List.range w) j d 0 (by simpa using h)]
  congr 1
  rw [List.getD_eq_getElem?_getD, List.getElem?_eq_getElem (by simpa using h)]
  simp

theorem zipWith_map_same {α β γ δ : Type} (f : β → γ → δ) (g1 : α → β) (g2 : α → γ)
    (l : List α) :
    List.zipWith f (l.map g1) (l.map g2) = l.map (fun x => f (g1 x) (g2 x)) := by
  induction l with
  | nil => rfl
  | cons a t ih => simp [ih]

/-! ### Imputation -/

/-- The imputed values sitting at the originally present positions of
column `j`: pair every original cell of the column with the corresponding
imputed value and keep the values whose original cell was present. -/
def keptVals (m : List (List Cell)) (w : Nat) (j : Nat) : List ℚ :=
  (List.zipWith (fun o v => Option.map (fun _ => v) o)
    (colCells m j) ((imputeMatrix m w).map (fun r => r.getD j 0))).filterMap id

theorem keptVals_eq (m : List (List Cell)) (w j : Nat) (hj : j < w) :
    keptVals m w j = nonMissing (colCells m j) := by
  unfold keptVals imputeMatrix colCells nonMissing
  rw [List.map_map, zipWith_map_same]
  congr 1
  refine List.map_congr_left ?_
  intro r _
  simp only [Function.comp_apply]
  rw [getD_range_map _ w j 0 hj]
  cases hc : r.getD j none with
  | none => rfl
  | some a => simp [hc]

/-- Claim C4: on a rectangular matrix whose columns each contain at least
one present value, mean imputation preserves the shape, replaces exactly
the missing cells by their column mean over the present entries, leaves the
present cells unchanged, and therefore leaves the per-column list (hence
the mean) of originally present values unchanged.  The result matrix is
fully numeric, so no missing value remains. -/
theorem imputation_spec (m : List (List Cell)) (w : Nat)
    (_hrect : ∀ r ∈ m, r.length = w)
    (_hcols : ∀ j < w, nonMissing (colCells m j) ≠ []) :
    (imputeMatrix m w).length = m.length ∧
    (∀ r ∈ imputeMatrix m w, r.length = w) ∧
    (∀ i j, i < m.length → j < w →
      (∀ v : ℚ, (m.getD i []).getD j none = some v →
        ((imputeMatrix m w).getD i []).getD j 0 = v) ∧
      ((m.getD i []).getD j none = none →
        ((imputeMatrix m w).getD i []).getD j 0 = colMean (colCells m j))) ∧
    (∀ j < w, keptVals m w j = nonMissing (colCells m j)) ∧
    (∀ j < w, (keptVals m w j).sum / ((keptVals m w j).length : ℚ) = colMean (colCells m j)) := by
  refine ⟨by simp [imputeMatrix], ?_, ?_, fun j hj => keptVals_eq m w j hj, ?_⟩
  · intro r hr
    unfold imputeMatrix at hr
    obtain ⟨r0, _, rfl⟩ := List.mem_map.mp hr
    simp
  · intro i j hi hj
    have hcell : ((imputeMatrix m w).getD i []).getD j 0 =
        ((m.getD i []).getD j none).getD (colMean (colCells m j)) := by
      unfold imputeMatrix
      rw [getD_map_lt _ m i [] [] hi, getD_range_map _ w j 0 hj]
    constructor
    · intro v hv
      rw [hcell, hv]
      rfl
    · intro hv
      rw [hcell, hv]
      rfl
  · intro j hj
    rw [keptVals_eq m w j hj]
    rfl

/-- A concrete matrix with one missing cell, for the C4 witness. -/
def sampleMissing : List (List Cell) :=
  [[some 1, none], [some 3, some 5], [some 5, some 7]]

/-- Witness for C4 on a concrete 3 by 2 matrix with a missing cell. -/
theorem imputation_spec_witness :
    (∀ r ∈ sampleMissing, r.length = 2) ∧
    (∀ j < 2, nonMissing (colCells sampleMissing j) ≠ []) ∧
    ((imputeMatrix sampleMissing 2).length = sampleMissing.length ∧
      (∀ r ∈ imputeMatrix sampleMissing 2, r.length = 2) ∧
      (∀ i j, i < sampleMissing.length → j < 2 →
        (∀ v : ℚ, (sampleMissing.getD i []).getD j none = some v →
          ((imputeMatrix sampleMissing 2).getD i []).getD j 0 = v) ∧
        ((sampleMissing.getD i []).getD j none = none →
          ((imputeMatrix sampleMissing 2).getD i []).getD j 0 =
            colMean (colCells sampleMissing j))) ∧
      (∀ j < 2, keptVals sampleMissing 2 j = nonMissing (colCells sampleMissing j)) ∧
      (∀ j < 2, (keptVals sampleMissing 2 j).sum / ((keptVals sampleMissing 2 j).length : ℚ) =
        colMean (colCells sampleMissing j))) :=
  ⟨by decide, by decide, imputation_spec sampleMissing 2 (by decide) (by decide)⟩

/-! ### Row selection and split-size helpers -/

theorem selectRows_eq_map {α : Type} (rows : List α) (idx : List Nat) (d : α)
    (hv : ∀ i ∈ idx, i < rows.length) :
    selectRows rows idx = idx.map (fun i => rows.getD i d) := by
  unfold selectRows
  induction idx with
  | nil => rfl
  | cons a t ih =>
    have ha : a < rows.length := hv a (List.mem_cons_self a t)
    have hga : rows.get? a = some (rows.getD a d) := by
      rw [List.get?_eq_getElem?, List.getElem?_eq_getElem ha, List.getD_eq_getElem?_getD,
        List.getElem?_eq_getElem ha]
      rfl
    rw [List.filterMap_cons, hga]
    show rows.getD a d :: List.filterMap (fun i => rows.get? i) t = _
    rw [List.map_cons, ih (fun i hi => hv i (List.mem_cons_of_mem a hi))]

theorem length_selectRows {α : Type} (rows : List α) (idx : List Nat) (d : α)
    (hv : ∀ i ∈ idx, i < rows.length) :
    (selectRows rows idx).length = idx.length := by
  rw [selectRows_eq_map rows idx d hv, List.length_map]

theorem nTestOf_le (n : Nat) : nTestOf (1 / 10) n ≤ n := by
  unfold nTestOf
  rw [Int.toNat_le]
  refine Int.ceil_le.mpr ?_
  push_cast
  have h0 : (0 : ℚ) ≤ (n : ℚ) := Nat.cast_nonneg n
  linarith

/-- The sklearn test-set size `ceil(n / 10)` is within one of `round(n / 10)`. -/
theorem nTestOf_close_round (n : Nat) :
    ((nTestOf (1 / 10) n : ℤ) - round ((1 / 10 : ℚ) * n)).natAbs ≤ 1 := by
  have hx0 : (0 : ℚ) ≤ (1 / 10 : ℚ) * n := by positivity
  rw [nTestOf_cast, round_eq]
  have h2 : ⌊(1 / 10 : ℚ) * n⌋ ≤ ⌊(1 / 10 : ℚ) * n + 1 / 2⌋ := Int.floor_mono (by linarith)
  have h3 : ⌈(1 / 10 : ℚ) * n⌉ ≤ ⌊(1 / 10 : ℚ) * n⌋ + 1 :=
    Int.ceil_le_floor_add_one _
  have h4 : ⌊(1 / 10 : ℚ) * n + 1 / 2⌋ ≤ ⌈(1 / 10 : ℚ) * n⌉ := by
    have hle : (1 / 10 : ℚ) * n + 1 / 2 ≤ (⌈(1 / 10 : ℚ) * n⌉ : ℚ) + 1 / 2 := by
      have hc := Int.le_ceil ((1 / 10 : ℚ) * n)
      linarith
    calc ⌊(1 / 10 : ℚ) * n + 1 / 2⌋ ≤ ⌊(⌈(1 / 10 : ℚ) * n⌉ : ℚ) + 1 / 2⌋ := Int.floor_mono hle
      _ = ⌈(1 / 10 : ℚ) * n⌉ + ⌊(1 : ℚ) / 2⌋ := Int.floor_int_add _ _
      _ = ⌈(1 / 10 : ℚ) * n⌉ := by norm_num
  omega

/-! ### Consolidated facts about successful runs -/

/-- Shape, index and write facts of a successful PCA run. -/
theorem process_run_facts (axes : List (List ℚ)) (perm : List Nat) (input : DataFrame)
    (pre : String) (ws : List (String × DataFrame)) (out : RunOut)
    (h : processHeartDiseaseData axes perm input pre = (ws, Except.ok out)) :
    out.X_df.rows.length = input.rows.length ∧
    out.y_df.rows.length = input.rows.length ∧
    out.testIdx = perm.take (nTestOf (1 / 10) input.rows.length) ∧
    out.trainIdx = perm.drop (nTestOf (1 / 10) input.rows.length) ∧
    out.X_test = ⟨out.X_df.cols, selectRows out.X_df.rows out.testIdx⟩ ∧
    out.X_train = ⟨out.X_df.cols, selectRows out.X_df.rows out.trainIdx⟩ ∧
    out.y_test = ⟨out.y_df.cols, selectRows out.y_df.rows out.testIdx⟩ ∧
    out.y_train = ⟨out.y_df.cols, selectRows out.y_df.rows out.trainIdx⟩ ∧
    out.y_df.cols = ["quality"] ∧
    ws = [(pre ++ ".csv", concatCols out.X_df out.y_df),
          (pre ++ "_train.csv", concatCols out.X_train out.y_train),
          (pre ++ "_test.csv", concatCols out.X_test out.y_test)] := by
  obtain ⟨xdf, y, xpca, hd, hy, hp, hsp⟩ := process_ok_inv axes perm input pre ws out h
  obtain ⟨hq, hcols, hrows⟩ := dropCol_ok_inv input "quality" xdf hd
  obtain ⟨hq2, hyv⟩ := getCol_ok_inv input "quality" y hy
  obtain ⟨hk, hxp⟩ := pca_ok_inv 6 axes (imputeMatrix xdf.rows xdf.cols.length)
    xdf.cols.length xpca hp
  have hxlen : (toCells xpca).length = input.rows.length := by
    rw [hxp]
    simp only [toCells, centerMatrix, imputeMatrix, List.length_map]
    rw [hrows, List.length_map]
  have hylen : (y.map (fun c => ([c] : List Cell))).length = input.rows.length := by
    rw [List.length_map, hyv, List.length_map]
  obtain ⟨hguard, hout, hws⟩ := splitPersist_ok_inv _ _ perm pre ws out hsp
  subst hout
  subst hws
  refine ⟨hxlen, hylen, ?_, ?_, rfl, rfl, rfl, rfl, rfl, rfl⟩
  · show perm.take (nTestOf (1 / 10) (toCells xpca).length) = _
    rw [hxlen]
  · show perm.drop (nTestOf (1 / 10) (toCells xpca).length) = _
    rw [hxlen]

/-- Shape, index and write facts of a successful feature-selection run. -/
theorem feature_run_facts (imp : List ℚ) (perm : List Nat) (input : DataFrame)
    (pre : String) (ws : List (String × DataFrame)) (out : RunOut)
    (h : featureSelectionAndSplit imp perm input pre = (ws, Except.ok out)) :
    out.X_df.rows.length = input.rows.length ∧
    out.y_df.rows.length = input.rows.length ∧
    out.testIdx = perm.take (nTestOf (1 / 10) input.rows.length) ∧
    out.trainIdx = perm.drop (nTestOf (1 / 10) input.rows.length) ∧
    out.X_test = ⟨out.X_df.cols, selectRows out.X_df.rows out.testIdx⟩ ∧
    out.X_train = ⟨out.X_df.cols, selectRows out.X_df.rows out.trainIdx⟩ ∧
    out.y_test = ⟨out.y_df.cols, selectRows out.y_df.rows out.testIdx⟩ ∧
    out.y_train = ⟨out.y_df.cols, selectRows out.y_df.rows out.trainIdx⟩ ∧
    out.y_df.cols = ["quality"] ∧
    ws = [(pre ++ ".csv", concatCols out.X_df out.y_df),
          (pre ++ "_train.csv", concatCols out.X_train out.y_train),
          (pre ++ "_test.csv", concatCols out.X_test out.y_test)] := by
  obtain ⟨xdf, y, hd, hy, hsp⟩ := feature_ok_inv imp perm input pre ws out h
  obtain ⟨hq, hcols, hrows⟩ := dropCol_ok_inv input "quality" xdf hd
  obtain ⟨hq2, hyv⟩ := getCol_ok_inv input "quality" y hy
  have hxlen : (toCells ((imputeMatrix xdf.rows xdf.cols.length).map
      (fun r => ((argsortDesc imp).take ((argsortDesc imp).length / 2)).map
        (fun j => r.getD j 0)))).length = input.rows.length := by
    simp only [toCells, imputeMatrix, List.length_map]
    rw [hrows, List.length_map]
  have hylen : (y.map (fun c => ([c] : List Cell))).length = input.rows.length := by
    rw [List.length_map, hyv, List.length_map]
  obtain ⟨hguard, hout, hws⟩ := splitPersist_ok_inv _ _ perm pre ws out hsp
  subst hout
  subst hws
  refine ⟨hxlen, hylen, ?_, ?_, rfl, rfl, rfl, rfl, rfl, rfl⟩
  · show perm.take (nTestOf (1 / 10) (toCells _).length) = _
    rw [hxlen]
  · show perm.drop (nTestOf (1 / 10) (toCells _).length) = _
    rw [hxlen]

/-- Abstract facts about splitting `n` rows along a permutation of
`0 .. n-1`: the two index blocks repartition the row indices, every index
falls in exactly one block, and the selected row counts add up to `n` with
the test block of size `nTestOf`. -/
theorem split_facts {α : Type} (n : Nat) (perm : List Nat) (rows : List α) (d : α)
    (hperm : perm.Perm (List.range n)) (hrows : rows.length = n) :
    (perm.take (nTestOf (1 / 10) n) ++ perm.drop (nTestOf (1 / 10) n)).Perm (List.range n) ∧
    (∀ i < n,
      (i ∈ perm.drop (nTestOf (1 / 10) n) ∧ i ∉ perm.take (nTestOf (1 / 10) n)) ∨
      (i ∈ perm.take (nTestOf (1 / 10) n) ∧ i ∉ perm.drop (nTestOf (1 / 10) n))) ∧
    (selectRows rows (perm.drop (nTestOf (1 / 10) n))).length +
      (selectRows rows (perm.take (nTestOf (1 / 10) n))).length = n ∧
    (selectRows rows (perm.take (nTestOf (1 / 10) n))).length = nTestOf (1 / 10) n := by
  have hl : perm.length = n := by rw [hperm.length_eq, List.length_range]
  have htn : nTestOf (1 / 10) n ≤ n := nTestOf_le n
  have hvalid : ∀ i ∈ perm, i < n := fun i hi =>
    List.mem_range.mp (hperm.mem_iff.mp hi)
  have happ : perm.take (nTestOf (1 / 10) n) ++ perm.drop (nTestOf (1 / 10) n) = perm :=
    List.take_append_drop _ perm
  have hval1 : ∀ i ∈ perm.drop (nTestOf (1 / 10) n), i < rows.length := fun i hi => by
    rw [hrows]
    exact hvalid i (List.drop_subset _ perm hi)
  have hval2 : ∀ i ∈ perm.take (nTestOf (1 / 10) n), i < rows.length := fun i hi => by
    rw [hrows]
    exact hvalid i (List.take_subset _ perm hi)
  refine ⟨by rw [happ]; exact hperm, ?_, ?_, ?_⟩
  · intro i hi
    have hmem : i ∈ perm := hperm.mem_iff.mpr (List.mem_range.mpr hi)
    have hnd : (perm.take (nTestOf (1 / 10) n) ++ perm.drop (nTestOf (1 / 10) n)).Nodup := by
      rw [happ]
      exact hperm.nodup_iff.mpr (List.nodup_range n)
    rw [List.nodup_append] at hnd
    obtain ⟨-, -, hdisj⟩ := hnd
    rw [← happ] at hmem
    rcases List.mem_append.mp hmem with hc | hc
    · exact Or.inr ⟨hc, fun hc2 => hdisj hc hc2⟩
    · exact Or.inl ⟨hc, fun hc2 => hdisj hc2 hc⟩
  · rw [length_selectRows rows _ d hval1, length_selectRows rows _ d hval2,
      List.length_drop, List.length_take, hl]
    omega
  · rw [length_selectRows rows _ d hval2, List.length_take, hl]
    omega

/-- Claim C3: in both pipelines the seed-42 split partitions the reduced
rows: the test and train index blocks together are a permutation of all row
indices, every row index lands in exactly one block, the train and test row
counts sum to the total, and the test count is `ceil(n / 10)`, which is
within one of `round(n / 10)`. -/
theorem split_partition (axes : List (List ℚ)) (imp : List ℚ) (perm : List Nat)
    (input : DataFrame) (pre1 pre2 : String) (w1 w2 : List (String × DataFrame))
    (o1 o2 : RunOut)
    (hperm : perm.Perm (List.range input.rows.length))
    (h1 : processHeartDiseaseData axes perm input pre1 = (w1, Except.ok o1))
    (h2 : featureSelectionAndSplit imp perm input pre2 = (w2, Except.ok o2)) :
    (o1.testIdx ++ o1.trainIdx).Perm (List.range input.rows.length) ∧
    (o2.testIdx ++ o2.trainIdx).Perm (List.range input.rows.length) ∧
    (∀ i < input.rows.length,
      (i ∈ o1.trainIdx ∧ i ∉ o1.testIdx) ∨ (i ∈ o1.testIdx ∧ i ∉ o1.trainIdx)) ∧
    (∀ i < input.rows.length,
      (i ∈ o2.trainIdx ∧ i ∉ o2.testIdx) ∨ (i ∈ o2.testIdx ∧ i ∉ o2.trainIdx)) ∧
    o1.X_train.rows.length + o1.X_test.rows.length = input.rows.length ∧
    o2.X_train.rows.length + o2.X_test.rows.length = input.rows.length ∧
    o1.X_test.rows.length = nTestOf (1 / 10) input.rows.length ∧
    o2.X_test.rows.length = nTestOf (1 / 10) input.rows.length ∧
    ((nTestOf (1 / 10) input.rows.length : ℤ) -
      round ((1 / 10 : ℚ) * input.rows.length)).natAbs ≤ 1 := by
  obtain ⟨hx1, hy1, hti1, htr1, hXte1, hXtr1, hyte1, hytr1, hyc1, hws1⟩ :=
    process_run_facts axes perm input pre1 w1 o1 h1
  obtain ⟨hx2, hy2, hti2, htr2, hXte2, hXtr2, hyte2, hytr2, hyc2, hws2⟩ :=
    feature_run_facts imp perm input pre2 w2 o2 h2
  obtain ⟨hp1, hone1, hsum1, hlen1⟩ :=
    split_facts input.rows.length perm o1.X_df.rows ([] : List Cell) hperm hx1
  obtain ⟨hp2, hone2, hsum2, hlen2⟩ :=
    split_facts input.rows.length perm o2.X_df.rows ([] : List Cell) hperm hx2
  refine ⟨?_, ?_, ?_, ?_, ?_, ?_, ?_, ?_, nTestOf_close_round input.rows.length⟩
  · rw [hti1, htr1]
    exact hp1
  · rw [hti2, htr2]
    exact hp2
  · rw [hti1, htr1]
    exact hone1
  · rw [hti2, htr2]
    exact hone2
  · rw [hXtr1, hXte1, htr1, hti1]
    exact hsum1
  · rw [hXtr2, hXte2, htr2, hti2]
    exact hsum2
  · rw [hXte1, hti1]
    exact hlen1
  · rw [hXte2, hti2]
    exact hlen2

/-- Witness for C3 at the concrete sample runs. -/
theorem split_partition_witness :
    samplePerm6.Perm (List.range sampleInput.rows.length) ∧
    processHeartDiseaseData sampleAxes samplePerm6 sampleInput "p" =
        (sampleProcWrites, Except.ok sampleProcOut) ∧
    featureSelectionAndSplit sampleImp samplePerm6 sampleInput "q" =
        (sampleFeatWrites, Except.ok sampleFeatOut) ∧
    ((sampleProcOut.testIdx ++ sampleProcOut.trainIdx).Perm
        (List.range sampleInput.rows.length) ∧
      (sampleFeatOut.testIdx ++ sampleFeatOut.trainIdx).Perm
        (List.range sampleInput.rows.length) ∧
      (∀ i < sampleInput.rows.length,
        (i ∈ sampleProcOut.trainIdx ∧ i ∉ sampleProcOut.testIdx) ∨
        (i ∈ sampleProcOut.testIdx ∧ i ∉ sampleProcOut.trainIdx)) ∧
      (∀ i < sampleInput.rows.length,
        (i ∈ sampleFeatOut.trainIdx ∧ i ∉ sampleFeatOut.testIdx) ∨
        (i ∈ sampleFeatOut.testIdx ∧ i ∉ sampleFeatOut.trainIdx)) ∧
      sampleProcOut.X_train.rows.length + sampleProcOut.X_test.rows.length =
        sampleInput.rows.length ∧
      sampleFeatOut.X_train.rows.length + sampleFeatOut.X_test.rows.length =
        sampleInput.rows.length ∧
      sampleProcOut.X_test.rows.length = nTestOf (1 / 10) sampleInput.rows.length ∧
      sampleFeatOut.X_test.rows.length = nTestOf (1 / 10) sampleInput.rows.length ∧
      ((nTestOf (1 / 10) sampleInput.rows.length : ℤ) -
        round ((1 / 10 : ℚ) * sampleInput.rows.length)).natAbs ≤ 1) :=
  ⟨by decide, sampleProcRun_eq, sampleFeatRun_eq,
   split_partition sampleAxes sampleImp samplePerm6 sampleInput "p" "q"
     sampleProcWrites sampleFeatWrites sampleProcOut sampleFeatOut (by decide)
     sampleProcRun_eq sampleFeatRun_eq⟩

/-! ### File-system effect helpers -/

theorem append_ne_of_length_ne (p a b : String) (h : a.length ≠ b.length) :
    p ++ a ≠ p ++ b := by
  intro he
  apply h
  have hl := congrArg String.length he
  rw [String.length_append, String.length_append] at hl
  omega

/-- Effect of a three-write run on the file system: each of the three paths
holds its serialized frame (later writes overwrite anything earlier at the
same path, including any pre-existing file), and every other path is
untouched. -/
theorem runWrites_three (fs : FileSys) (n1 n2 n3 : String) (d1 d2 d3 : DataFrame)
    (h12 : n1 ≠ n2) (h13 : n1 ≠ n3) (h23 : n2 ≠ n3) :
    runWrites fs [(n1, d1), (n2, d2), (n3, d3)] n1 = some (toCsv d1) ∧
    runWrites fs [(n1, d1), (n2, d2), (n3, d3)] n2 = some (toCsv d2) ∧
    runWrites fs [(n1, d1), (n2, d2), (n3, d3)] n3 = some (toCsv d3) ∧
    (∀ q, q ≠ n1 → q ≠ n2 → q ≠ n3 →
      runWrites fs [(n1, d1), (n2, d2), (n3, d3)] q = fs q) := by
  unfold runWrites writeFile
  simp only [List.foldl]
  refine ⟨?_, ?_, ?_, ?_⟩
  · rw [if_neg h13, if_neg h12]
    simp
  · rw [if_neg h23]
    simp
  · simp
  · intro q hq1 hq2 hq3
    rw [if_neg hq3, if_neg hq2, if_neg hq1]

/-- Claim C6: each successful pipeline run writes exactly the three files
`P.csv` (reduced features plus the quality column), `P_train.csv` and
`P_test.csv`, in that order; after the run each of the three paths holds the
serialization of its frame regardless of what was there before, and no
other path changes.  `toCsv` serializes with a header row and no index
column. -/
theorem persisted_files (axes : List (List ℚ)) (imp : List ℚ) (perm : List Nat)
    (input : DataFrame) (pre1 pre2 : String) (fs : FileSys)
    (w1 w2 : List (String × DataFrame)) (o1 o2 : RunOut)
    (h1 : processHeartDiseaseData axes perm input pre1 = (w1, Except.ok o1))
    (h2 : featureSelectionAndSplit imp perm input pre2 = (w2, Except.ok o2)) :
    w1.map Prod.fst = [pre1 ++ ".csv", pre1 ++ "_train.csv", pre1 ++ "_test.csv"] ∧
    w2.map Prod.fst = [pre2 ++ ".csv", pre2 ++ "_train.csv", pre2 ++ "_test.csv"] ∧
    runWrites fs w1 (pre1 ++ ".csv") = some (toCsv (concatCols o1.X_df o1.y_df)) ∧
    runWrites fs w1 (pre1 ++ "_train.csv") = some (toCsv (concatCols o1.X_train o1.y_train)) ∧
    runWrites fs w1 (pre1 ++ "_test.csv") = some (toCsv (concatCols o1.X_test o1.y_test)) ∧
    (∀ q, q ∉ w1.map Prod.fst → runWrites fs w1 q = fs q) ∧
    runWrites fs w2 (pre2 ++ ".csv") = some (toCsv (concatCols o2.X_df o2.y_df)) ∧
    runWrites fs w2 (pre2 ++ "_train.csv") = some (toCsv (concatCols o2.X_train o2.y_train)) ∧
    runWrites fs w2 (pre2 ++ "_test.csv") = some (toCsv (concatCols o2.X_test o2.y_test)) ∧
    (∀ q, q ∉ w2.map Prod.fst → runWrites fs w2 q = fs q) ∧
    (concatCols o1.X_df o1.y_df).cols = o1.X_df.cols ++ ["quality"] ∧
    (concatCols o2.X_df o2.y_df).cols = o2.X_df.cols ++ ["quality"] := by
  obtain ⟨hx1, hy1, hti1, htr1, hXte1, hXtr1, hyte1, hytr1, hyc1, hws1⟩ :=
    process_run_facts axes perm input pre1 w1 o1 h1
  obtain ⟨hx2, hy2, hti2, htr2, hXte2, hXtr2, hyte2, hytr2, hyc2, hws2⟩ :=
    feature_run_facts imp perm input pre2 w2 o2 h2
  have hcsvtr : (".csv" : String).length ≠ ("_train.csv" : String).length := by decide
  have hcsvte : (".csv" : String).length ≠ ("_test.csv" : String).length := by decide
  have htrte : ("_train.csv" : String).length ≠ ("_test.csv" : String).length := by decide
  have hne1a := append_ne_of_length_ne pre1 ".csv" "_train.csv" hcsvtr
  have hne1b := append_ne_of_length_ne pre1 ".csv" "_test.csv" hcsvte
  have hne1c := append_ne_of_length_ne pre1 "_train.csv" "_test.csv" htrte
  have hne2a := append_ne_of_length_ne pre2 ".csv" "_train.csv" hcsvtr
  have hne2b := append_ne_of_length_ne pre2 ".csv" "_test.csv" hcsvte
  have hne2c := append_ne_of_length_ne pre2 "_train.csv" "_test.csv" htrte
  obtain ⟨hra1, hrb1, hrc1, hrq1⟩ := runWrites_three fs (pre1 ++ ".csv")
    (pre1 ++ "_train.csv") (pre1 ++ "_test.csv")
    (concatCols o1.X_df o1.y_df) (concatCols o1.X_train o1.y_train)
    (concatCols o1.X_test o1.y_test) hne1a hne1b hne1c
  obtain ⟨hra2, hrb2, hrc2, hrq2⟩ := runWrites_three fs (pre2 ++ ".csv")
    (pre2 ++ "_train.csv") (pre2 ++ "_test.csv")
    (concatCols o2.X_df o2.y_df) (concatCols o2.X_train o2.y_train)
    (concatCols o2.X_test o2.y_test) hne2a hne2b hne2c
  subst hws1 hws2
  refine ⟨rfl, rfl, hra1, hrb1, hrc1, ?_, hra2, hrb2, hrc2, ?_, ?_, ?_⟩
  · intro q hq
    simp only [List.map_cons, List.map_nil, List.mem_cons, List.not_mem_nil,
      not_or, or_false] at hq
    exact hrq1 q hq.1 hq.2.1 hq.2.2
  · intro q hq
    simp only [List.map_cons, List.map_nil, List.mem_cons, List.not_mem_nil,
      not_or, or_false] at hq
    exact hrq2 q hq.1 hq.2.1 hq.2.2
  · show o1.X_df.cols ++ o1.y_df.cols = o1.X_df.cols ++ ["quality"]
    rw [hyc1]
  · show o2.X_df.cols ++ o2.y_df.cols = o2.X_df.cols ++ ["quality"]
    rw [hyc2]

/-- Witness for C6 at the concrete sample runs over the empty file system. -/
theorem persisted_files_witness :
    processHeartDiseaseData sampleAxes samplePerm6 sampleInput "p" =
        (sampleProcWrites, Except.ok sampleProcOut) ∧
    featureSelectionAndSplit sampleImp samplePerm6 sampleInput "q" =
        (sampleFeatWrites, Except.ok sampleFeatOut) ∧
    (sampleProcWrites.map Prod.fst = ["p" ++ ".csv", "p" ++ "_train.csv", "p" ++ "_test.csv"] ∧
      sampleFeatWrites.map Prod.fst = ["q" ++ ".csv", "q" ++ "_train.csv", "q" ++ "_test.csv"] ∧
      runWrites emptyFS sampleProcWrites ("p" ++ ".csv") =
        some (toCsv (concatCols sampleProcOut.X_df sampleProcOut.y_df)) ∧
      runWrites emptyFS sampleProcWrites ("p" ++ "_train.csv") =
        some (toCsv (concatCols sampleProcOut.X_train sampleProcOut.y_train)) ∧
      runWrites emptyFS sampleProcWrites ("p" ++ "_test.csv") =
        some (toCsv (concatCols sampleProcOut.X_test sampleProcOut.y_test)) ∧
      (∀ q, q ∉ sampleProcWrites.map Prod.fst →
        runWrites emptyFS sampleProcWrites q = emptyFS q) ∧
      runWrites emptyFS sampleFeatWrites ("q" ++ ".csv") =
        some (toCsv (concatCols sampleFeatOut.X_df sampleFeatOut.y_df)) ∧
      runWrites emptyFS sampleFeatWrites ("q" ++ "_train.csv") =
        some (toCsv (concatCols sampleFeatOut.X_train sampleFeatOut.y_train)) ∧
      runWrites emptyFS sampleFeatWrites ("q" ++ "_test.csv") =
        some (toCsv (concatCols sampleFeatOut.X_test sampleFeatOut.y_test)) ∧
      (∀ q, q ∉ sampleFeatWrites.map Prod.fst →
        runWrites emptyFS sampleFeatWrites q = emptyFS q) ∧
      (concatCols sampleProcOut.X_df sampleProcOut.y_df).cols =
        sampleProcOut.X_df.cols ++ ["quality"] ∧
      (concatCols sampleFeatOut.X_df sampleFeatOut.y_df).cols =
        sampleFeatOut.X_df.cols ++ ["quality"]) :=
  ⟨sampleProcRun_eq, sampleFeatRun_eq,
   persisted_files sampleAxes sampleImp samplePerm6 sampleInput "p" "q" emptyFS
     sampleProcWrites sampleFeatWrites sampleProcOut sampleFeatOut
     sampleProcRun_eq sampleFeatRun_eq⟩

/-! ### Row-level alignment helpers -/

theorem getD_zipWith_lt {α β γ : Type} (f : α → β → γ) (a : List α) (b : List β)
    (i : Nat) (d : γ) (da : α) (db : β) (ha : i < a.length) (hb : i < b.length) :
    (List.zipWith f a b).getD i d = f (a.getD i da) (b.getD i db) := by
  have hz : i < (List.zipWith f a b).length := by
    rw [List.length_zipWith]
    exact lt_min ha hb
  rw [List.getD_eq_getElem?_getD, List.getElem?_eq_getElem hz, List.getElem_zipWith,
    List.getD_eq_getElem?_getD, List.getElem?_eq_getElem ha,
    List.getD_eq_getElem?_getD, List.getElem?_eq_getElem hb]
  rfl

theorem getD_mem_of_lt (l : List Nat) (p : Nat) (hp : p < l.length) : l.getD p 0 ∈ l := by
  rw [List.getD_eq_getElem?_getD, List.getElem?_eq_getElem hp]
  exact List.getElem_mem hp

/-- Row `p` of a positional concatenation of two equally indexed row
selections pairs the feature row and the label row of the same original
index. -/
theorem select_concat_row (X yrows : List (List Cell)) (idx : List Nat) (p n : Nat)
    (hX : X.length = n) (hY : yrows.length = n)
    (hv : ∀ i ∈ idx, i < n) (hp : p < idx.length) :
    (List.zipWith (· ++ ·) (selectRows X idx) (selectRows yrows idx)).getD p [] =
      X.getD (idx.getD p 0) [] ++ yrows.getD (idx.getD p 0) [] := by
  have hvX : ∀ i ∈ idx, i < X.length := fun i hi => by
    rw [hX]
    exact hv i hi
  have hvY : ∀ i ∈ idx, i < yrows.length := fun i hi => by
    rw [hY]
    exact hv i hi
  rw [selectRows_eq_map X idx [] hvX, selectRows_eq_map yrows idx [] hvY,
    getD_zipWith_lt _ _ _ p [] [] [] (by rw [List.length_map]; exact hp)
      (by rw [List.length_map]; exact hp),
    getD_map_lt _ idx p [] 0 hp, getD_map_lt _ idx p [] 0 hp]

/-- The label frame of a successful PCA run holds the quality column. -/
theorem process_y_rows (axes : List (List ℚ)) (perm : List Nat) (input : DataFrame)
    (pre : String) (ws : List (String × DataFrame)) (out : RunOut) (y : List Cell)
    (hy : getCol input "quality" = Except.ok y)
    (h : processHeartDiseaseData axes perm input pre = (ws, Except.ok out)) :
    out.y_df.rows = y.map (fun c => [c]) := by
  obtain ⟨xdf, y2, xpca, hd, hy2, hp, hsp⟩ := process_ok_inv axes perm input pre ws out h
  rw [hy] at hy2
  obtain rfl : y = y2 := Except.ok.inj hy2
  obtain ⟨hguard, hout, hws⟩ := splitPersist_ok_inv _ _ perm pre ws out hsp
  subst hout
  rfl

/-- The label frame of a successful feature-selection run holds the quality
column. -/
theorem feature_y_rows (imp : List ℚ) (perm : List Nat) (input : DataFrame)
    (pre : String) (ws : List (String × DataFrame)) (out : RunOut) (y : List Cell)
    (hy : getCol input "quality" = Except.ok y)
    (h : featureSelectionAndSplit imp perm input pre = (ws, Except.ok out)) :
    out.y_df.rows = y.map (fun c => [c]) := by
  obtain ⟨xdf, y2, hd, hy2, hsp⟩ := feature_ok_inv imp perm input pre ws out h
  rw [hy] at hy2
  obtain rfl : y = y2 := Except.ok.inj hy2
  obtain ⟨hguard, hout, hws⟩ := splitPersist_ok_inv _ _ perm pre ws out hsp
  subst hout
  rfl

/-- Claim C8: in both pipelines the quality labels stay aligned with the
feature rows through every transformation: in the full combined table row
`i` carries the quality value of input row `i` next to the reduced features
of input row `i`, and in the persisted train and test tables position `p`
carries the reduced features and the quality value of the same original row
index (the index at position `p` of the corresponding split index block). -/
theorem label_alignment (axes : List (List ℚ)) (imp : List ℚ) (perm : List Nat)
    (input : DataFrame) (pre1 pre2 : String) (w1 w2 : List (String × DataFrame))
    (o1 o2 : RunOut) (y : List Cell)
    (hy : getCol input "quality" = Except.ok y)
    (hperm : perm.Perm (List.range input.rows.length))
    (h1 : processHeartDiseaseData axes perm input pre1 = (w1, Except.ok o1))
    (h2 : featureSelectionAndSplit imp perm input pre2 = (w2, Except.ok o2)) :
    (∀ i < input.rows.length,
      (concatCols o1.X_df o1.y_df).rows.getD i [] =
        o1.X_df.rows.getD i [] ++ [y.getD i none]) ∧
    (∀ p < o1.trainIdx.length,
      (concatCols o1.X_train o1.y_train).rows.getD p [] =
        o1.X_df.rows.getD (o1.trainIdx.getD p 0) [] ++ [y.getD (o1.trainIdx.getD p 0) none]) ∧
    (∀ p < o1.testIdx.length,
      (concatCols o1.X_test o1.y_test).rows.getD p [] =
        o1.X_df.rows.getD (o1.testIdx.getD p 0) [] ++ [y.getD (o1.testIdx.getD p 0) none]) ∧
    (∀ i < input.rows.length,
      (concatCols o2.X_df o2.y_df).rows.getD i [] =
        o2.X_df.rows.getD i [] ++ [y.getD i none]) ∧
    (∀ p < o2.trainIdx.length,
      (concatCols o2.X_train o2.y_train).rows.getD p [] =
        o2.X_df.rows.getD (o2.trainIdx.getD p 0) [] ++ [y.getD (o2.trainIdx.getD p 0) none]) ∧
    (∀ p < o2.testIdx.length,
      (concatCols o2.X_test o2.y_test).rows.getD p [] =
        o2.X_df.rows.getD (o2.testIdx.getD p 0) [] ++ [y.getD (o2.testIdx.getD p 0) none]) := by
  obtain ⟨hx1, hy1, hti1, htr1, hXte1, hXtr1, hyte1, hytr1, hyc1, hws1⟩ :=
    process_run_facts axes perm input pre1 w1 o1 h1
  obtain ⟨hx2, hy2, hti2, htr2, hXte2, hXtr2, hyte2, hytr2, hyc2, hws2⟩ :=
    feature_run_facts imp perm input pre2 w2 o2 h2
  have hyr1 := process_y_rows axes perm input pre1 w1 o1 y hy h1
  have hyr2 := feature_y_rows imp perm input pre2 w2 o2 y hy h2
  have ylen : y.length = input.rows.length := by
    have hcopy := hy1
    rw [hyr1, List.length_map] at hcopy
    exact hcopy
  have hvperm : ∀ i ∈ perm, i < input.rows.length := fun i hi =>
    List.mem_range.mp (hperm.mem_iff.mp hi)
  have hvtr1 : ∀ i ∈ o1.trainIdx, i < input.rows.length := fun i hi => by
    rw [htr1] at hi
    exact hvperm i (List.drop_subset _ perm hi)
  have hvte1 : ∀ i ∈ o1.testIdx, i < input.rows.length := fun i hi => by
    rw [hti1] at hi
    exact hvperm i (List.take_subset _ perm hi)
  have hvtr2 : ∀ i ∈ o2.trainIdx, i < input.rows.length := fun i hi => by
    rw [htr2] at hi
    exact hvperm i (List.drop_subset _ perm hi)
  have hvte2 : ∀ i ∈ o2.testIdx, i < input.rows.length := fun i hi => by
    rw [hti2] at hi
    exact hvperm i (List.take_subset _ perm hi)
  refine ⟨?_, ?_, ?_, ?_, ?_, ?_⟩
  · intro i hi
    show (List.zipWith (· ++ ·) o1.X_df.rows o1.y_df.rows).getD i [] = _
    rw [getD_zipWith_lt _ _ _ i [] [] [] (by rw [hx1]; exact hi) (by rw [hy1]; exact hi),
      hyr1, getD_map_lt _ y i [] none (by rw [ylen]; exact hi)]
  · intro p hp
    have hidx : o1.trainIdx.getD p 0 < input.rows.length :=
      hvtr1 _ (getD_mem_of_lt o1.trainIdx p hp)
    rw [hXtr1, hytr1]
    show (List.zipWith (· ++ ·) (selectRows o1.X_df.rows o1.trainIdx)
      (selectRows o1.y_df.rows o1.trainIdx)).getD p [] = _
    rw [select_concat_row o1.X_df.rows o1.y_df.rows o1.trainIdx p input.rows.length
      hx1 hy1 hvtr1 hp, hyr1, getD_map_lt _ y _ [] none (by rw [ylen]; exact hidx)]
  · intro p hp
    have hidx : o1.testIdx.getD p 0 < input.rows.length :=
      hvte1 _ (getD_mem_of_lt o1.testIdx p hp)
    rw [hXte1, hyte1]
    show (List.zipWith (· ++ ·) (selectRows o1.X_df.rows o1.testIdx)
      (selectRows o1.y_df.rows o1.testIdx)).getD p [] = _
    rw [select_concat_row o1.X_df.rows o1.y_df.rows o1.testIdx p input.rows.length
      hx1 hy1 hvte1 hp, hyr1, getD_map_lt _ y _ [] none (by rw [ylen]; exact hidx)]
  · intro i hi
    show (List.zipWith (· ++ ·) o2.X_df.rows o2.y_df.rows).getD i [] = _
    rw [getD_zipWith_lt _ _ _ i [] [] [] (by rw [hx2]; exact hi) (by rw [hy2]; exact hi),
      hyr2, getD_map_lt _ y i [] none (by rw [ylen]; exact hi)]
  · intro p hp
    have hidx : o2.trainIdx.getD p 0 < input.rows.length :=
      hvtr2 _ (getD_mem_of_lt o2.trainIdx p hp)
    rw [hXtr2, hytr2]
    show (List.zipWith (· ++ ·) (selectRows o2.X_df.rows o2.trainIdx)
      (selectRows o2.y_df.rows o2.trainIdx)).getD p [] = _
    rw [select_concat_row o2.X_df.rows o2.y_df.rows o2.trainIdx p input.rows.length
      hx2 hy2 hvtr2 hp, hyr2, getD_map_lt _ y _ [] none (by rw [ylen]; exact hidx)]
  · intro p hp
    have hidx : o2.testIdx.getD p 0 < input.rows.length :=
      hvte2 _ (getD_mem_of_lt o2.testIdx p hp)
    rw [hXte2, hyte2]
    show (List.zipWith (· ++ ·) (selectRows o2.X_df.rows o2.testIdx)
      (selectRows o2.y_df.rows o2.testIdx)).getD p [] = _
    rw [select_concat_row o2.X_df.rows o2.y_df.rows o2.testIdx p input.rows.length
      hx2 hy2 hvte2 hp, hyr2, getD_map_lt _ y _ [] none (by rw [ylen]; exact hidx)]

/-- The quality column of the sample input. -/
def sampleY : List Cell := [some 5, some 6, some 7, some 5, some 6, some 7]

/-- Witness for C8 at the concrete sample runs. -/
theorem label_alignment_witness :
    getCol sampleInput "quality" = Except.ok sampleY ∧
    samplePerm6.Perm (List.range sampleInput.rows.length) ∧
    processHeartDiseaseData sampleAxes samplePerm6 sampleInput "p" =
        (sampleProcWrites, Except.ok sampleProcOut) ∧
    featureSelectionAndSplit sampleImp samplePerm6 sampleInput "q" =
        (sampleFeatWrites, Except.ok sampleFeatOut) ∧
    ((∀ i < sampleInput.rows.length,
        (concatCols sampleProcOut.X_df sampleProcOut.y_df).rows.getD i [] =
          sampleProcOut.X_df.rows.getD i [] ++ [sampleY.getD i none]) ∧
      (∀ p < sampleProcOut.trainIdx.length,
        (concatCols sampleProcOut.X_train sampleProcOut.y_train).rows.getD p [] =
          sampleProcOut.X_df.rows.getD (sampleProcOut.trainIdx.getD p 0) [] ++
            [sampleY.getD (sampleProcOut.trainIdx.getD p 0) none]) ∧
      (∀ p < sampleProcOut.testIdx.length,
        (concatCols sampleProcOut.X_test sampleProcOut.y_test).rows.getD p [] =
          sampleProcOut.X_df.rows.getD (sampleProcOut.testIdx.getD p 0) [] ++
            [sampleY.getD (sampleProcOut.testIdx.getD p 0) none]) ∧
      (∀ i < sampleInput.rows.length,
        (concatCols sampleFeatOut.X_df sampleFeatOut.y_df).rows.getD i [] =
          sampleFeatOut.X_df.rows.getD i [] ++ [sampleY.getD i none]) ∧
      (∀ p < sampleFeatOut.trainIdx.length,
        (concatCols sampleFeatOut.X_train sampleFeatOut.y_train).rows.getD p [] =
          sampleFeatOut.X_df.rows.getD (sampleFeatOut.trainIdx.getD p 0) [] ++
            [sampleY.getD (sampleFeatOut.trainIdx.getD p 0) none]) ∧
      (∀ p < sampleFeatOut.testIdx.length,
        (concatCols sampleFeatOut.X_test sampleFeatOut.y_test).rows.getD p [] =
          sampleFeatOut.X_df.rows.getD (sampleFeatOut.testIdx.getD p 0) [] ++
            [sampleY.getD (sampleFeatOut.testIdx.getD p 0) none])) :=
  ⟨rfl, by decide, sampleProcRun_eq, sampleFeatRun_eq,
   label_alignment sampleAxes sampleImp samplePerm6 sampleInput "p" "q"
     sampleProcWrites sampleFeatWrites sampleProcOut sampleFeatOut sampleY
     rfl (by decide) sampleProcRun_eq sampleFeatRun_eq⟩

end DimRed
